import Mathlib

/-
  Verification development for the CDISC Library MCP server (src/main.py).

  The server exposes CDISC Library REST endpoints as MCP tools.  Each tool
  validates its parameters against static allow-lists, builds a URL, issues an
  HTTP GET, optionally reshapes the decoded JSON (three tree transformations),
  serializes it, truncates oversized output, and maps failures to labelled
  strings.

  Shallow embedding conventions:
  * Decoded Python JSON values are modelled by `Json`.  Python dicts are
    modelled as association lists in insertion order; dicts produced by
    `json.loads` have unique keys.
  * Python strings are Lean `String`s; Python slices text by code point, which
    matches `List Char` operations on `String.data`.
  * `json.dumps` is modelled by `dumpsJ` below, parameterized by the
    `ensure_ascii` flag and the item/key separators, matching CPython's
    behaviour (default separators are ", " and ": "; with
    `separators=(',', ':')` they are "," and ":"; `ensure_ascii=True` escapes
    characters outside 0x20..0x7e).
  * Each tool is split into a "step" function (credential check, validation,
    URL construction; returning either a reply string or the request that
    would be issued) and a "respond" function (mapping the outcome of the
    HTTP call to the returned string).  The `mcp`/`httpx` plumbing itself is
    out of scope; the `Outcome` type records which exception class (if any)
    the call raised, mirroring the `except` clauses of the source.
-/

inductive Json where
  | null
  | bool (b : Bool)
  | num (n : Int)
  | str (s : String)
  | arr (xs : List Json)
  | obj (fs : List (String × Json))

/-- Python `s[:n]` on a string: take the first `n` code points. -/
def strTake (s : String) (n : Nat) : String :=
  String.mk (s.data.take n)

theorem strTake_length (s : String) (n : Nat) :
    (strTake s n).length = min n s.length := by
  show (s.data.take n).length = min n s.data.length
  exact List.length_take n s.data

theorem string_data_append (a b : String) : (a ++ b).data = a.data ++ b.data := rfl

theorem string_length_eq_data (s : String) : s.length = s.data.length := rfl

theorem string_length_append (a b : String) : (a ++ b).length = a.length + b.length := by
  show (a.data ++ b.data).length = a.data.length + b.data.length
  exact List.length_append a.data b.data

theorem string_append_assoc (a b c : String) : a ++ b ++ c = a ++ (b ++ c) := by
  apply congrArg String.mk
  simp [string_data_append, List.append_assoc]

/-- First character of a string, used to separate the labelled error strings. -/
def headChar (s : String) : Option Char :=
  s.data.head?

theorem headChar_append (c : Char) (cs : List Char) (t : String) :
    headChar (String.mk (c :: cs) ++ t) = some c := rfl

theorem ne_of_headChar {s t : String} (h : headChar s ≠ headChar t) : s ≠ t :=
  fun he => h (congrArg headChar he)

/-- Lowercase hex digit, as produced by CPython's `\uXXXX` escapes. -/
def hexDigit (n : Nat) : Char :=
  if n < 10 then Char.ofNat (48 + n) else Char.ofNat (87 + n)

def hex4 (n : Nat) : List Char :=
  [hexDigit (n / 4096 % 16), hexDigit (n / 256 % 16), hexDigit (n / 16 % 16), hexDigit (n % 16)]

/-- CPython string escaping for `json.dumps`: `"` and `\` and control
characters are always escaped (`\b \t \n \f \r` have short forms); with
`ensure_ascii` every character outside 0x20..0x7e is escaped, using a
surrogate pair above 0xffff. -/
def escChar (ascii : Bool) (c : Char) : List Char :=
  if c = '"' then ['\\', '"']
  else if c = '\\' then ['\\', '\\']
  else if c = Char.ofNat 8 then ['\\', 'b']
  else if c = Char.ofNat 9 then ['\\', 't']
  else if c = Char.ofNat 10 then ['\\', 'n']
  else if c = Char.ofNat 12 then ['\\', 'f']
  else if c = Char.ofNat 13 then ['\\', 'r']
  else if c.toNat < 32 then '\\' :: 'u' :: hex4 c.toNat
  else if ascii && decide (126 < c.toNat) then
    if c.toNat ≤ 65535 then '\\' :: 'u' :: hex4 c.toNat
    else
      let v := c.toNat - 65536
      ('\\' :: 'u' :: hex4 (55296 + v / 1024)) ++ ('\\' :: 'u' :: hex4 (56320 + v % 1024))
  else [c]

def escList (ascii : Bool) : List Char → List Char
  | [] => []
  | c :: cs => escChar ascii c ++ escList ascii cs

/-- A JSON string literal: quote, escaped contents, quote. -/
def escStr (ascii : Bool) (s : String) : String :=
  "\"" ++ String.mk (escList ascii s.data) ++ "\""

mutual

/-- `json.dumps` on a decoded value, given the `ensure_ascii` flag and the
`(item_separator, key_separator)` pair. -/
def dumpsJ (ascii : Bool) (isep ksep : String) : Json → String
  | .null => "null"
  | .bool true => "true"
  | .bool false => "false"
  | .num n => toString n
  | .str s => escStr ascii s
  | .arr xs => "[" ++ dumpsItems ascii isep ksep xs ++ "]"
  | .obj fs => "\x7b" ++ dumpsFields ascii isep ksep fs ++ "\x7d"

def dumpsItems (ascii : Bool) (isep ksep : String) : List Json → String
  | [] => ""
  | [x] => dumpsJ ascii isep ksep x
  | x :: rest => dumpsJ ascii isep ksep x ++ isep ++ dumpsItems ascii isep ksep rest

def dumpsFields (ascii : Bool) (isep ksep : String) : List (String × Json) → String
  | [] => ""
  | [(k, v)] => escStr ascii k ++ ksep ++ dumpsJ ascii isep ksep v
  | (k, v) :: rest =>
    escStr ascii k ++ ksep ++ dumpsJ ascii isep ksep v ++ isep ++ dumpsFields ascii isep ksep rest

end

/-- `json.dumps(data)` with default arguments (`ensure_ascii=True`,
separators `", "` and `": "`). -/
def dumpsDefault (j : Json) : String :=
  dumpsJ true ", " ": " j

/-- `json.dumps(data, separators=(',', ':'))` as used by the CT endpoints. -/
def dumpsCompact (j : Json) : String :=
  dumpsJ true "," ":" j

/-- `json.dumps(data, ensure_ascii=False)` as used by the product-list tool. -/
def dumpsNoAscii (j : Json) : String :=
  dumpsJ false ", " ": " j

theorem dumpsDefault_sanity :
    dumpsDefault (Json.obj [("a", Json.num 1), ("b", Json.arr [Json.null, Json.bool true])])
      = "\x7b\"a\": 1, \"b\": [null, true]\x7d" := rfl

theorem dumpsCompact_sanity :
    dumpsCompact (Json.obj [("a", Json.num 1), ("b", Json.arr [Json.null, Json.bool true])])
      = "\x7b\"a\":1,\"b\":[null,true]\x7d" := rfl

/-! ## Response shapers (src/main.py lines 688-697, 774-787, 1037-1060) -/

mutual

/-- `remove_all_analysis_variables` (src/main.py lines 688-697): recursively
walks the value; any dict entry keyed `analysisVariables` has its value
replaced by the empty list, then all (new) values are visited.  Replacing
before recursing equals replacing during the per-entry map, since the
function maps `[]` to `[]`. -/
def remove_all_analysis_variables : Json → Json
  | .arr xs => .arr (removeAllL xs)
  | .obj fs => .obj (removeAllF fs)
  | j => j

def removeAllL : List Json → List Json
  | [] => []
  | x :: rest => remove_all_analysis_variables x :: removeAllL rest

def removeAllF : List (String × Json) → List (String × Json)
  | [] => []
  | (k, v) :: rest =>
    (k, if k = "analysisVariables" then Json.arr []
        else remove_all_analysis_variables v) :: removeAllF rest

end

mutual

/-- `remove_links_parent_refs` (src/main.py lines 774-787), with the
`parent_key` argument first.  For a dict reached under key
`analysisVariables` whose `_links` value is itself a dict, the `_links`
value is replaced by a dict holding only its `self` entry (or by the empty
dict); the walk then continues into every value under its own key, and into
list elements under the unchanged parent key.  The source shrinks `_links`
in place and then iterates over the updated dict; visiting the shrunk
`{self: A}` under parent `_links` (which never triggers the shrink) and
then `A` under parent `self` is what `shrinkSelf` performs directly. -/
def remove_links_parent_refs (p : Option String) : Json → Json
  | .arr xs => .arr (removeLinksL p xs)
  | .obj fs => .obj (removeLinksF p fs)
  | j => j
termination_by j => sizeOf j

def removeLinksF (p : Option String) : List (String × Json) → List (String × Json)
  | [] => []
  | (k, v) :: rest =>
    (match v with
     | .obj lfs =>
       if p = some "analysisVariables" ∧ k = "_links" then (k, Json.obj (shrinkSelf lfs))
       else (k, remove_links_parent_refs (some k) (Json.obj lfs))
     | w => (k, remove_links_parent_refs (some k) w)) :: removeLinksF p rest
termination_by fs => sizeOf fs

def shrinkSelf : List (String × Json) → List (String × Json)
  | [] => []
  | (k, v) :: rest =>
    if k = "self" then [("self", remove_links_parent_refs (some "self") v)]
    else shrinkSelf rest
termination_by lfs => sizeOf lfs

def removeLinksL (p : Option String) : List Json → List Json
  | [] => []
  | x :: rest => remove_links_parent_refs p x :: removeLinksL p rest
termination_by xs => sizeOf xs

end

/-- Python `d.get(k)`: the value at `k`, or `None` when absent. -/
def pyGet (fs : List (String × Json)) (k : String) : Json :=
  (List.lookup k fs).getD Json.null

/-- Python `for x in v`: lists yield their elements, dicts their keys,
strings their one-character substrings; scalars raise `TypeError`. -/
def pyIter : Json → Except String (List Json)
  | .arr xs => .ok xs
  | .obj fs => .ok (fs.map fun kv => Json.str kv.fst)
  | .str s => .ok (s.data.map fun c => Json.str (String.mk [c]))
  | .null => .error "'NoneType' object is not iterable"
  | .bool _ => .error "'bool' object is not iterable"
  | .num _ => .error "'int' object is not iterable"

/-- One term of the codelist minimization in `get_package_ct_info`
(src/main.py lines 1050-1055): keep only `conceptId` and `submissionValue`
(via `.get`, so a missing field becomes `null`). -/
def minTerm : Json → Except String Json
  | .obj tfs =>
    .ok (Json.obj [("conceptId", pyGet tfs "conceptId"),
                   ("submissionValue", pyGet tfs "submissionValue")])
  | .str _ => .error "'str' object has no attribute 'get'"
  | .null => .error "'NoneType' object has no attribute 'get'"
  | .bool _ => .error "'bool' object has no attribute 'get'"
  | .num _ => .error "'int' object has no attribute 'get'"
  | .arr _ => .error "'list' object has no attribute 'get'"

/-- One codelist of the minimization in `get_package_ct_info`
(src/main.py lines 1041-1057): rebuild with `conceptId`, `submissionValue`
and the minimized `terms` (empty when the `terms` field is absent). -/
def minCl : Json → Except String Json
  | .obj cfs => do
    let terms ← match List.lookup "terms" cfs with
      | some tv => do
        let ts ← pyIter tv
        ts.mapM minTerm
      | none => pure []
    .ok (Json.obj [("conceptId", pyGet cfs "conceptId"),
                   ("submissionValue", pyGet cfs "submissionValue"),
                   ("terms", Json.arr terms)])
  | .str _ => .error "'str' object has no attribute 'get'"
  | .null => .error "'NoneType' object has no attribute 'get'"
  | .bool _ => .error "'bool' object has no attribute 'get'"
  | .num _ => .error "'int' object has no attribute 'get'"
  | .arr _ => .error "'list' object has no attribute 'get'"

/-- The data-minification block of `get_package_ct_info` (src/main.py lines
1037-1059): `final_data = {"codelists": [minimized codelists]}` built from
`raw_data.get("codelists", [])`.  A `TypeError`/`AttributeError` raised by
Python on ill-shaped data is returned as `.error` (caught by the tool's
generic `except Exception` clause). -/
def ctMinimize : Json → Except String Json
  | .obj fs => do
    let items ← pyIter ((List.lookup "codelists" fs).getD (Json.arr []))
    let minimized ← items.mapM minCl
    .ok (Json.obj [("codelists", Json.arr minimized)])
  | .arr _ => .error "'list' object has no attribute 'get'"
  | .str _ => .error "'str' object has no attribute 'get'"
  | .null => .error "'NoneType' object has no attribute 'get'"
  | .bool _ => .error "'bool' object has no attribute 'get'"
  | .num _ => .error "'int' object has no attribute 'get'"

/-! ## Truncation and outcome handling -/

/-- Python `data[:n]` on a decoded JSON value: strings and lists slice;
dicts raise `TypeError: unhashable type: 'slice'`; scalars are not
subscriptable. -/
def pySlice (j : Json) (n : Nat) : Except String Json :=
  match j with
  | .str s => .ok (.str (strTake s n))
  | .arr xs => .ok (.arr (xs.take n))
  | .obj _ => .error "unhashable type: 'slice'"
  | .null => .error "'NoneType' object is not subscriptable"
  | .bool _ => .error "'bool' object is not subscriptable"
  | .num _ => .error "'int' object is not subscriptable"

/-- The length limit compared against serialized output, shared literally by
all tools except the product list (which has none). -/
def maxResponseLen : Nat := 130000

/-- The over-limit marker of the non-CT tools: `+ "..." + "The data is too
long, please shorten the request."`. -/
def truncMarker : String := "..." ++ "The data is too long, please shorten the request."

/-- The over-limit marker of the three CT-package tools. -/
def truncMarkerCT : String := "\n... [Truncated]"

/-- `result[:130000] + "..." + "The data is too long, ..."` applied to the
serialized string, as in `get_adam_product_info`, `get_adam_datastructure_info`
and `get_qrs_info`. -/
def truncLong (s : String) : String :=
  if s.length > maxResponseLen then strTake s maxResponseLen ++ truncMarker else s

/-- `json_str[:130000] + "\n... [Truncated]"` of the three CT-package tools. -/
def truncCT (s : String) : String :=
  if s.length > maxResponseLen then strTake s maxResponseLen ++ truncMarkerCT else s

/-- Outcome of the awaited `client.get` plus body processing, mirroring the
`except` clauses of the source: `timeout` is `httpx.TimeoutException` (a
subclass of `httpx.TransportError`, itself a subclass of
`httpx.RequestError`); `httpStatus` is the `httpx.HTTPStatusError` raised by
`raise_for_status` for a non-2xx response, carrying the upstream status code
and body text; `reqError` is any other `httpx.RequestError`; `exn` is any
other exception, carrying `str(e)`. -/
inductive Outcome where
  | ok (data : Json)
  | timeout (msg : String)
  | httpStatus (code : Nat) (body : String)
  | reqError (msg : String)
  | exn (msg : String)

/-- Outcome handling of `get_CDISC_Library_api_product_list` (src/main.py
lines 46-59): the only tool with an explicit `except httpx.TimeoutException`
clause, listed before `except httpx.RequestError`. -/
def respondProducts : Outcome → String
  | .ok d => dumpsNoAscii d
  | .timeout _ => "Error: The request to CDISC Library timed out. Please try again later."
  | .httpStatus c _ => "API Error: CDISC Library returned status " ++ toString c ++ "."
  | .reqError m => "Network Error: Unable to connect to CDISC Library. Details: " ++ m
  | .exn m => "Unexpected Error: " ++ m

/-- Outcome handling shared verbatim by the eleven IG/model info tools
(e.g. `get_sdtmig_class_info`, src/main.py lines 100-116): on success the
over-limit branch slices the decoded `data`, not the serialized string
(`json.dumps(data[:130000])`); a `TypeError` raised by that slice is caught
by `except Exception` and returned as an Execution Error.  There is no
timeout clause, so a timeout is caught by `except httpx.RequestError`. -/
def respondSliceData : Outcome → String
  | .ok d =>
    if (dumpsDefault d).length > maxResponseLen then
      match pySlice d maxResponseLen with
      | .ok d2 => dumpsDefault d2 ++ truncMarker
      | .error m => "Execution Error: " ++ m
    else dumpsDefault d
  | .timeout m => "Network Error: " ++ m
  | .httpStatus c b => "API Error: HTTP " ++ toString c ++ " - " ++ b
  | .reqError m => "Network Error: " ++ m
  | .exn m => "Execution Error: " ++ m

/-- Outcome handling of `get_adam_product_info` (shape =
`remove_all_analysis_variables`), `get_adam_datastructure_info` (shape =
`remove_links_parent_refs` with parent `None`) and `get_qrs_info` (shape =
identity): the serialized string itself is sliced (src/main.py lines
741-749, 839-845, 914-919). -/
def respondSliceStr (shape : Json → Json) : Outcome → String
  | .ok d => truncLong (dumpsDefault (shape d))
  | .timeout m => "Network Error: " ++ m
  | .httpStatus c b => "API Error: HTTP " ++ toString c ++ " - " ++ b
  | .reqError m => "Network Error: " ++ m
  | .exn m => "Execution Error: " ++ m

/-- Outcome handling of the three CT-package tools (src/main.py lines
1031-1073, 1117-1136, 1183-1202): compact separators, the CT marker, and for
`get_package_ct_info` the minification step whose Python-level failures are
caught by `except Exception`. -/
def respondCT (shape : Json → Except String Json) : Outcome → String
  | .ok d =>
    match shape d with
    | .ok d2 => truncCT (dumpsCompact d2)
    | .error m => "Execution Error: " ++ m
  | .timeout m => "Network Error: " ++ m
  | .httpStatus c b => "API Error: HTTP " ++ toString c ++ " - " ++ b
  | .reqError m => "Network Error: " ++ m
  | .exn m => "Execution Error: " ++ m

/-! ## Static allow-lists (src/main.py docstrings and literals) -/

def sdtmigClassList : List String :=
  ["GeneralObservations", "Interventions", "Events", "Findings", "FindingsAbout", "SpecialPurpose", "TrialDesign", "StudyReference", "Relationship"]

def sdtmigDatasetList : List String :=
  ["AG", "CM", "EC", "EX", "ML", "PR", "SU", "AE", "BE", "CE", "DS", "DV", "HO", "MH", "BS", "CP", "DA", "DD", "EG", "FT", "GF", "IE", "IS", "LB", "MB", "MI", "MK", "MS", "NV", "OE", "PC", "PE", "PP", "QS", "RE", "RP", "RS", "SC", "SS", "TR", "TU", "UR", "VS", "FA", "SR", "CO", "DM", "SE", "SM", "SV", "TA", "TD", "TE", "TI"]

def sdtmModelClassList : List String :=
  ["GeneralObservations", "Interventions", "Events", "Findings", "FindingsAbout", "SpecialPurpose", "AssociatedPersons", "TrialDesign", "StudyReference", "Relationship"]

def sdtmModelDatasetList : List String :=
  ["DM", "CO", "SE", "SJ", "SV", "SM", "TE", "TA", "TX", "TT", "TP", "TV", "TD", "TM", "TI", "TS", "AC", "DI", "OI", "RELREC", "SUPPQUAL", "POOLDEF", "RELSUB", "RELREF", "DR", "APRELSUB", "RELSPEC"]

def sendigClassList : List String :=
  ["GeneralObservations", "SpecialPurpose", "Interventions", "Events", "Findings", "TrialDesign", "Relationship"]

def sendigDatasetList : List String :=
  ["DM", "CO", "SE", "EX", "DS", "BW", "BG", "CL", "DD", "FW", "LB", "MA", "MI", "OM", "PM", "PC", "PP", "SC", "TF", "VS", "EG", "CV", "RE", "TE", "TA", "TX", "TS", "RELREC", "SUPPQUAL", "POOLDEF"]

def cdashigClassList : List String :=
  ["Interventions", "Events", "Findings", "FindingsAbout", "SpecialPurpose"]

def cdashigDomainList : List String :=
  ["AG", "CM", "EC", "EX", "ML", "PR", "SU", "AE", "CE", "DS", "DV", "HO", "MH", "SA", "CP", "CV", "DA", "DD", "EG", "GF", "IE", "LB", "MB", "MI", "MK", "MS", "NV", "OE", "PC", "PE", "RE", "RP", "RS", "SC", "TR", "TU", "UR", "VS", "FA", "SR", "CO", "DM"]

def cdashModelClassList : List String :=
  ["Interventions", "Events", "Findings", "FindingsAbout", "SpecialPurpose", "Identifiers", "AssociatedPersonsIdentifiers", "Timing"]

def cdashModelDomainList : List String :=
  ["AE", "CO", "DM", "DS", "MH", "MS"]

def ALLOWED_adam_datastructure_combinations : List (String × List String) :=
  [("adam-nca-1-0", ["ADNCA"]),
   ("adamig-1-0", ["ADSL", "BDS"]),
   ("adamig-1-1", ["ADSL", "BDS"]),
   ("adam-occds-1-0", ["OCCDS"]),
   ("adam-occds-1-1", ["OCCDS", "AE"]),
   ("adam-adae-1-0", ["ADAE"]),
   ("adam-poppk-1-0", ["ADPPK"]),
   ("adam-tte-1-0", ["ADTTE"]),
   ("adamig-1-2", ["ADSL", "BDS"]),
   ("adam-md-1-0", ["ADDL", "MDOCCDS", "MDBDS", "MDTTE"]),
   ("adamig-1-3", ["ADSL", "BDS", "TTE"])]

def ALLOWED_qrs_combinations : List (String × List String) :=
  [("AIMS01", ["2-0"]),
   ("APCH1", ["1-0"]),
   ("ATLAS1", ["1-0"]),
   ("CGI02", ["2-1"]),
   ("HAMA1", ["2-1"]),
   ("KFSS1", ["2-0"]),
   ("KPSS1", ["2-0"]),
   ("PGI01", ["1-1"]),
   ("SIXMW1", ["1-0"])]

def ct_package : List String :=
  ["adamct-2014-09-26", "adamct-2015-12-18", "adamct-2016-03-25", "adamct-2016-09-30", 
   "adamct-2016-12-16", "adamct-2017-03-31", "adamct-2017-09-29", "adamct-2018-12-21", 
   "adamct-2019-03-29", "adamct-2019-12-20", "adamct-2020-03-27", "adamct-2020-06-26", 
   "adamct-2020-11-06", "adamct-2021-12-17", "adamct-2022-06-24", "adamct-2023-03-31", 
   "adamct-2023-06-30", "adamct-2024-03-29", "adamct-2024-09-27", "adamct-2025-03-28", 
   "adamct-2025-09-26", "cdashct-2014-09-26", "cdashct-2015-03-27", "cdashct-2016-03-25", 
   "cdashct-2016-09-30", "cdashct-2016-12-16", "cdashct-2017-09-29", "cdashct-2018-03-30", 
   "cdashct-2018-06-29", "cdashct-2018-09-28", "cdashct-2018-12-21", "cdashct-2019-03-29", 
   "cdashct-2019-06-28", "cdashct-2019-12-20", "cdashct-2020-11-06", "cdashct-2020-12-18", 
   "cdashct-2021-03-26", "cdashct-2021-06-25", "cdashct-2021-09-24", "cdashct-2021-12-17", 
   "cdashct-2022-06-24", "cdashct-2022-09-30", "cdashct-2022-12-16", "cdashct-2024-09-27", 
   "cdashct-2025-03-28", "coact-2014-12-19", "coact-2015-03-27", "ddfct-2022-09-30", 
   "ddfct-2022-12-16", "ddfct-2023-03-31", "ddfct-2023-06-30", "ddfct-2023-09-29", 
   "ddfct-2023-12-15", "ddfct-2024-03-29", "ddfct-2024-09-27", "ddfct-2025-09-26", 
   "define-xmlct-2019-12-20", "define-xmlct-2020-03-27", "define-xmlct-2020-06-26", 
   "define-xmlct-2020-11-06", "define-xmlct-2020-12-18", "define-xmlct-2021-03-26", 
   "define-xmlct-2021-06-25", "define-xmlct-2021-09-24", "define-xmlct-2021-12-17", 
   "define-xmlct-2022-09-30", "define-xmlct-2022-12-16", "define-xmlct-2023-06-30", 
   "define-xmlct-2023-12-15", "define-xmlct-2024-03-29", "define-xmlct-2024-09-27", 
   "define-xmlct-2025-03-28", "define-xmlct-2025-09-26", "glossaryct-2020-12-18", 
   "glossaryct-2021-12-17", "glossaryct-2022-12-16", "glossaryct-2023-12-15", 
   "glossaryct-2024-09-27", "glossaryct-2025-09-26", "mrctct-2024-03-29", "mrctct-2024-09-27", 
   "mrctct-2025-09-26", "protocolct-2017-03-31", "protocolct-2017-06-30", "protocolct-2017-09-29", 
   "protocolct-2018-03-30", "protocolct-2018-06-29", "protocolct-2018-09-28", 
   "protocolct-2019-03-29", "protocolct-2019-06-28", "protocolct-2019-09-27", 
   "protocolct-2019-12-20", "protocolct-2020-03-27", "protocolct-2020-06-26", 
   "protocolct-2020-11-06", "protocolct-2020-12-18", "protocolct-2021-03-26", 
   "protocolct-2021-06-25", "protocolct-2021-09-24", "protocolct-2021-12-17", 
   "protocolct-2022-03-25", "protocolct-2022-06-24", "protocolct-2022-09-30", 
   "protocolct-2022-12-16", "protocolct-2023-03-31", "protocolct-2023-06-30", 
   "protocolct-2023-09-29", "protocolct-2023-12-15", "protocolct-2024-03-29", 
   "protocolct-2024-09-27", "protocolct-2025-03-28", "protocolct-2025-09-26", "qrsct-2015-06-26", 
   "qrsct-2015-09-25", "qs-ftct-2014-09-26", "sdtmct-2014-09-26", "sdtmct-2014-12-19", 
   "sdtmct-2015-03-27", "sdtmct-2015-06-26", "sdtmct-2015-09-25", "sdtmct-2015-12-18", 
   "sdtmct-2016-03-25", "sdtmct-2016-06-24", "sdtmct-2016-09-30", "sdtmct-2016-12-16", 
   "sdtmct-2017-03-31", "sdtmct-2017-06-30", "sdtmct-2017-09-29", "sdtmct-2017-12-22", 
   "sdtmct-2018-03-30", "sdtmct-2018-06-29", "sdtmct-2018-09-28", "sdtmct-2018-12-21", 
   "sdtmct-2019-03-29", "sdtmct-2019-06-28", "sdtmct-2019-09-27", "sdtmct-2019-12-20", 
   "sdtmct-2020-03-27", "sdtmct-2020-06-26", "sdtmct-2020-11-06", "sdtmct-2020-12-18", 
   "sdtmct-2021-03-26", "sdtmct-2021-06-25", "sdtmct-2021-09-24", "sdtmct-2021-12-17", 
   "sdtmct-2022-03-25", "sdtmct-2022-06-24", "sdtmct-2022-09-30", "sdtmct-2022-12-16", 
   "sdtmct-2023-03-31", "sdtmct-2023-06-30", "sdtmct-2023-09-29", "sdtmct-2023-12-15", 
   "sdtmct-2024-03-29", "sdtmct-2024-09-27", "sdtmct-2025-03-28", "sdtmct-2025-09-26", 
   "sendct-2014-09-26", "sendct-2014-12-19", "sendct-2015-03-27", "sendct-2015-06-26", 
   "sendct-2015-09-25", "sendct-2015-12-18", "sendct-2016-03-25", "sendct-2016-06-24", 
   "sendct-2016-09-30", "sendct-2016-12-16", "sendct-2017-03-31", "sendct-2017-06-30", 
   "sendct-2017-09-29", "sendct-2017-12-22", "sendct-2018-03-30", "sendct-2018-06-29", 
   "sendct-2018-09-28", "sendct-2018-12-21", "sendct-2019-03-29", "sendct-2019-06-28", 
   "sendct-2019-09-27", "sendct-2019-12-20", "sendct-2020-03-27", "sendct-2020-06-26", 
   "sendct-2020-11-06", "sendct-2020-12-18", "sendct-2021-03-26", "sendct-2021-06-25", 
   "sendct-2021-09-24", "sendct-2021-12-17", "sendct-2022-03-25", "sendct-2022-06-24", 
   "sendct-2022-09-30", "sendct-2022-12-16", "sendct-2023-03-31", "sendct-2023-06-30", 
   "sendct-2023-09-29", "sendct-2023-12-15", "sendct-2024-03-29", "sendct-2024-09-27", 
   "sendct-2025-03-28", "sendct-2025-09-26", "tmfct-2024-09-27"]

/-! ## Per-tool validation and URL construction

Each tool's pre-network phase: read the credential, (for most tools) return
a fixed message when it is unset, validate the coded allow-list parameters,
and build the request URL.  `Step.reply` means the string is returned with
no HTTP request issued; `Step.request url` means an HTTP GET for `url` is
issued.  `api_key` is passed in as `Option String` (`none` = environment
variable unset); Python's `if not api_key` also treats the empty string as
missing. -/

inductive Step where
  | reply (s : String)
  | request (url : String)
deriving DecidableEq

/-- Python truthiness of an optional string parameter (`None` and `""` are
falsy). -/
def truthy : Option String → Bool
  | none => false
  | some s => s != ""

/-- The fixed configuration-error string returned when `CDISC_API_KEY` is
unset. -/
def missingKeyMsg : String := "Error: CDISC_API_KEY environment variable not found."

def libBase : String := "https://api.library.cdisc.org/api/mdr"

/-- `get_CDISC_Library_api_product_list` (src/main.py lines 25-51): reads
the credential but never checks it (it is only placed in the request
header), so the request is issued unconditionally. -/
def get_CDISC_Library_api_product_list_step (_apiKey : Option String) : Step :=
  .request (libBase ++ "/products?expand=false")

/-- `get_sdtmig_class_info` validation/URL phase (src/main.py lines 81-92). -/
def get_sdtmig_class_info_step (apiKey : Option String) (version : String)
    (className : Option String) : Step :=
  if !truthy apiKey then .reply missingKeyMsg
  else
    let base := libBase ++ "/sdtmig/" ++ version ++ "/classes"
    match className with
    | some cn =>
      if cn = "" then .request base
      else if cn ∈ sdtmigClassList then .request (base ++ "/" ++ cn ++ "/datasets?expand=false")
      else .reply ("Error: className is invalid, got '" ++ cn ++ "'")
    | none => .request base

/-- `get_sdtmig_dataset_info` validation/URL phase (src/main.py lines 135-148). -/
def get_sdtmig_dataset_info_step (apiKey : Option String) (version dataset : String) : Step :=
  if !truthy apiKey then .reply missingKeyMsg
  else
    let base := libBase ++ "/sdtmig/" ++ version ++ "/datasets"
    if dataset = "" then .request base
    else if dataset ∈ sdtmigDatasetList then .request (base ++ "/" ++ dataset)
    else .reply ("Error: dataset is invalid, got '" ++ dataset ++ "'")

/-- `get_sdtm_model_class_info` validation/URL phase (src/main.py lines 194-206). -/
def get_sdtm_model_class_info_step (apiKey : Option String) (version : String)
    (className : Option String) : Step :=
  if !truthy apiKey then .reply missingKeyMsg
  else
    let base := libBase ++ "/sdtm/" ++ version ++ "/classes"
    match className with
    | some cn =>
      if cn = "" then .request base
      else if cn ∈ sdtmModelClassList then .request (base ++ "/" ++ cn)
      else .reply ("Error: className is invalid, got '" ++ cn ++ "'")
    | none => .request base

/-- `get_sdtm_model_dataset_info` validation/URL phase (src/main.py lines 251-264). -/
def get_sdtm_model_dataset_info_step (apiKey : Option String) (version : String)
    (dataset : Option String) : Step :=
  if !truthy apiKey then .reply missingKeyMsg
  else
    let base := libBase ++ "/sdtm/" ++ version ++ "/datasets"
    match dataset with
    | some ds =>
      if ds = "" then .request base
      else if ds ∈ sdtmModelDatasetList then .request (base ++ "/" ++ ds)
      else .reply ("Error: dataset is invalid, got '" ++ ds ++ "'")
    | none => .request base

/-- `get_sendig_class_info` validation/URL phase (src/main.py lines 310-322). -/
def get_sendig_class_info_step (apiKey : Option String) (version : String)
    (className : Option String) : Step :=
  if !truthy apiKey then .reply missingKeyMsg
  else
    let base := libBase ++ "/sendig/" ++ version ++ "/classes"
    match className with
    | some cn =>
      if cn = "" then .request base
      else if cn ∈ sendigClassList then .request (base ++ "/" ++ cn)
      else .reply ("Error: className is invalid, got '" ++ cn ++ "'")
    | none => .request base

/-- `get_sendig_dataset_info` validation/URL phase (src/main.py lines 366-379). -/
def get_sendig_dataset_info_step (apiKey : Option String) (version : String)
    (dataset : Option String) : Step :=
  if !truthy apiKey then .reply missingKeyMsg
  else
    let base := libBase ++ "/sendig/" ++ version ++ "/datasets"
    match dataset with
    | some ds =>
      if ds = "" then .request base
      else if ds ∈ sendigDatasetList then .request (base ++ "/" ++ ds)
      else .reply ("Error: dataset is invalid, got '" ++ ds ++ "'")
    | none => .request base

/-- `get_cdashig_class_info` validation/URL phase (src/main.py lines 424-436). -/
def get_cdashig_class_info_step (apiKey : Option String) (version : String)
    (className : Option String) : Step :=
  if !truthy apiKey then .reply missingKeyMsg
  else
    let base := libBase ++ "/cdashig/" ++ version ++ "/classes"
    match className with
    | some cn =>
      if cn = "" then .request base
      else if cn ∈ cdashigClassList then .request (base ++ "/" ++ cn ++ "/domains")
      else .reply ("Error: className is invalid, got '" ++ cn ++ "'")
    | none => .request base

/-- `get_cdashig_domain_info` validation/URL phase (src/main.py lines 482-495). -/
def get_cdashig_domain_info_step (apiKey : Option String) (version : String)
    (domains : Option String) : Step :=
  if !truthy apiKey then .reply missingKeyMsg
  else
    let base := libBase ++ "/cdashig/" ++ version ++ "/domains"
    match domains with
    | some dm =>
      if dm = "" then .request base
      else if dm ∈ cdashigDomainList then .request (base ++ "/" ++ dm)
      else .reply ("Error: domains is invalid, got '" ++ dm ++ "'")
    | none => .request base

/-- `get_cdashig_scenarios_info` validation/URL phase (src/main.py lines
539-548): the `scenario` parameter is interpolated without any allow-list
check. -/
def get_cdashig_scenarios_info_step (apiKey : Option String) (version : String)
    (scenario : Option String) : Step :=
  if !truthy apiKey then .reply missingKeyMsg
  else
    let base := libBase ++ "/cdashig/" ++ version ++ "/scenarios"
    match scenario with
    | some sc =>
      if sc = "" then .request base
      else .request (base ++ "/" ++ sc)
    | none => .request base

/-- `get_cdash_model_class_info` validation/URL phase (src/main.py lines 593-605). -/
def get_cdash_model_class_info_step (apiKey : Option String) (version : String)
    (className : Option String) : Step :=
  if !truthy apiKey then .reply missingKeyMsg
  else
    let base := libBase ++ "/cdash/" ++ version ++ "/classes"
    match className with
    | some cn =>
      if cn = "" then .request base
      else if cn ∈ cdashModelClassList then .request (base ++ "/" ++ cn)
      else .reply ("Error: className is invalid, got '" ++ cn ++ "'")
    | none => .request base

/-- `get_cdash_model_domain_info` validation/URL phase (src/main.py lines 649-661). -/
def get_cdash_model_domain_info_step (apiKey : Option String) (version : String)
    (domain : Option String) : Step :=
  if !truthy apiKey then .reply missingKeyMsg
  else
    let base := libBase ++ "/cdash/" ++ version ++ "/domains"
    match domain with
    | some dm =>
      if dm = "" then .request base
      else if dm ∈ cdashModelDomainList then .request (base ++ "/" ++ dm)
      else .reply ("Error: domain is invalid, got '" ++ dm ++ "'")
    | none => .request base

/-- `get_adam_product_info` validation/URL phase (src/main.py lines 724-728):
`product` is interpolated without any allow-list check. -/
def get_adam_product_info_step (apiKey : Option String) (product : String) : Step :=
  if !truthy apiKey then .reply missingKeyMsg
  else .request (libBase ++ "/adam/" ++ product)

/-- `get_adam_datastructure_info` validation/URL phase (src/main.py lines
813-826): two-level allow-list over product then datastructure. -/
def get_adam_datastructure_info_step (apiKey : Option String)
    (product datastructure : String) : Step :=
  if !truthy apiKey then .reply missingKeyMsg
  else
    match List.lookup product ALLOWED_adam_datastructure_combinations with
    | none =>
      .reply ("Error: Invalid product '" ++ product ++ "'. Valid products are: "
        ++ String.intercalate ", " (ALLOWED_adam_datastructure_combinations.map Prod.fst))
    | some allowed =>
      if datastructure ∈ allowed then
        .request (libBase ++ "/adam/" ++ product ++ "/datastructures/" ++ datastructure)
      else
        .reply ("Error: Invalid datastructure '" ++ datastructure ++ "' for product '"
          ++ product ++ "'. Valid datastructures are: " ++ String.intercalate ", " allowed)

/-- `get_qrs_info` validation/URL phase (src/main.py lines 888-901):
two-level allow-list over instrument then version. -/
def get_qrs_info_step (apiKey : Option String) (instrument version : String) : Step :=
  if !truthy apiKey then .reply missingKeyMsg
  else
    match List.lookup instrument ALLOWED_qrs_combinations with
    | none =>
      .reply ("Error: Invalid instrument '" ++ instrument ++ "'. Valid instruments are: "
        ++ String.intercalate ", " (ALLOWED_qrs_combinations.map Prod.fst))
    | some allowed =>
      if version ∈ allowed then
        .request (libBase ++ "/qrs/instruments/" ++ instrument ++ "/versions/" ++ version)
      else
        .reply ("Error: Invalid version '" ++ version ++ "' for instrument '"
          ++ instrument ++ "'. Valid versions are: " ++ String.intercalate ", " allowed)

/-- `get_package_ct_info` validation/URL phase (src/main.py lines 1013-1022). -/
def get_package_ct_info_step (apiKey : Option String) (package : String) : Step :=
  if !truthy apiKey then .reply missingKeyMsg
  else if package ∈ ct_package then
    .request (libBase ++ "/ct/packages/" ++ package)
  else .reply ("Error: Package '" ++ package ++ "' is invalid or not found in known packages.")

/-- `get_package_ct_codelist_info` validation/URL phase (src/main.py lines
1098-1107): `codelist` is interpolated without any allow-list check. -/
def get_package_ct_codelist_info_step (apiKey : Option String)
    (package codelist : String) : Step :=
  if !truthy apiKey then .reply missingKeyMsg
  else if package ∈ ct_package then
    .request (libBase ++ "/ct/packages/" ++ package ++ "/codelists/" ++ codelist)
  else .reply ("Error: Package '" ++ package ++ "' is invalid or not found in known packages.")

/-- `get_package_ct_codelist_term_info` validation/URL phase (src/main.py
lines 1164-1173): `codelist` and `term` are interpolated without any
allow-list check. -/
def get_package_ct_codelist_term_info_step (apiKey : Option String)
    (package codelist term : String) : Step :=
  if !truthy apiKey then .reply missingKeyMsg
  else if package ∈ ct_package then
    .request (libBase ++ "/ct/packages/" ++ package ++ "/codelists/" ++ codelist
      ++ "/terms/" ++ term)
  else .reply ("Error: Package '" ++ package ++ "' is invalid or not found in known packages.")

/-! ## Key-occurrence predicate and the fields-only-removed relation -/

mutual

/-- `noKeyJ key j`: no dict anywhere in `j` has an entry named `key`. -/
def noKeyJ (key : String) : Json → Bool
  | .arr xs => noKeyL key xs
  | .obj fs => noKeyF key fs
  | _ => true

def noKeyL (key : String) : List Json → Bool
  | [] => true
  | x :: rest => noKeyJ key x && noKeyL key rest

def noKeyF (key : String) : List (String × Json) → Bool
  | [] => true
  | (k, v) :: rest => (k != key) && noKeyJ key v && noKeyF key rest

end

mutual

/-- `FieldsSub out inp`: `out` arises from `inp` without inventing or
reordering dict fields — each node is either kept unchanged, replaced by the
empty list (which contains no fields), or rebuilt keeping an in-order subset
of the dict entries / the same-length list with related elements. -/
inductive FieldsSub : Json → Json → Prop where
  | refl (j : Json) : FieldsSub j j
  | emptyArr (j : Json) : FieldsSub (Json.arr []) j
  | arr {os is : List Json} : FieldsSubL os is → FieldsSub (Json.arr os) (Json.arr is)
  | obj {ofs ifs : List (String × Json)} :
      FieldsSubF ofs ifs → FieldsSub (Json.obj ofs) (Json.obj ifs)

inductive FieldsSubL : List Json → List Json → Prop where
  | nil : FieldsSubL [] []
  | cons {o i : Json} {os is : List Json} :
      FieldsSub o i → FieldsSubL os is → FieldsSubL (o :: os) (i :: is)

/-- An in-order sub-association: every output entry's name appears at the
same relative position in the input, with a `FieldsSub`-related value. -/
inductive FieldsSubF : List (String × Json) → List (String × Json) → Prop where
  | nil (l : List (String × Json)) : FieldsSubF [] l
  | skip {os is : List (String × Json)} (k : String) (v : Json) :
      FieldsSubF os is → FieldsSubF os ((k, v) :: is)
  | cons {o i : Json} {os is : List (String × Json)} (k : String) :
      FieldsSub o i → FieldsSubF os is → FieldsSubF ((k, o) :: os) ((k, i) :: is)

end

/-! ## Helper lemmas about the shapers -/

mutual

theorem removeAll_idem : (j : Json) →
    remove_all_analysis_variables (remove_all_analysis_variables j)
      = remove_all_analysis_variables j
  | .null => rfl
  | .bool _ => rfl
  | .num _ => rfl
  | .str _ => rfl
  | .arr xs => by simp [remove_all_analysis_variables, removeAllL_idem xs]
  | .obj fs => by simp [remove_all_analysis_variables, removeAllF_idem fs]

theorem removeAllL_idem : (xs : List Json) → removeAllL (removeAllL xs) = removeAllL xs
  | [] => rfl
  | x :: rest => by simp [removeAllL, removeAll_idem x, removeAllL_idem rest]

theorem removeAllF_idem : (fs : List (String × Json)) → removeAllF (removeAllF fs) = removeAllF fs
  | [] => rfl
  | (k, v) :: rest => by
    by_cases h : k = "analysisVariables" <;>
      simp [removeAllF, h, remove_all_analysis_variables, removeAllL,
        removeAll_idem v, removeAllF_idem rest]

end

mutual

theorem removeAll_noAV : (j : Json) → noKeyJ "analysisVariables" j = true →
    remove_all_analysis_variables j = j
  | .null, _ => rfl
  | .bool _, _ => rfl
  | .num _, _ => rfl
  | .str _, _ => rfl
  | .arr xs, h => by simp [remove_all_analysis_variables, removeAllL_noAV xs h]
  | .obj fs, h => by simp [remove_all_analysis_variables, removeAllF_noAV fs h]

theorem removeAllL_noAV : (xs : List Json) → noKeyL "analysisVariables" xs = true →
    removeAllL xs = xs
  | [], _ => rfl
  | x :: rest, h => by
    rw [noKeyL, Bool.and_eq_true] at h
    simp [removeAllL, removeAll_noAV x h.1, removeAllL_noAV rest h.2]

theorem removeAllF_noAV : (fs : List (String × Json)) → noKeyF "analysisVariables" fs = true →
    removeAllF fs = fs
  | [], _ => rfl
  | (k, v) :: rest, h => by
    rw [noKeyF, Bool.and_eq_true, Bool.and_eq_true, bne_iff_ne] at h
    obtain ⟨⟨hk, hv⟩, hrest⟩ := h
    simp [removeAllF, hk, removeAll_noAV v hv, removeAllF_noAV rest hrest]

end

mutual

theorem removeAll_sub : (j : Json) → FieldsSub (remove_all_analysis_variables j) j
  | .null => FieldsSub.refl _
  | .bool _ => FieldsSub.refl _
  | .num _ => FieldsSub.refl _
  | .str _ => FieldsSub.refl _
  | .arr xs => FieldsSub.arr (removeAllL_sub xs)
  | .obj fs => FieldsSub.obj (removeAllF_sub fs)

theorem removeAllL_sub : (xs : List Json) → FieldsSubL (removeAllL xs) xs
  | [] => FieldsSubL.nil
  | x :: rest => FieldsSubL.cons (removeAll_sub x) (removeAllL_sub rest)

theorem removeAllF_sub : (fs : List (String × Json)) → FieldsSubF (removeAllF fs) fs
  | [] => FieldsSubF.nil _
  | (k, v) :: rest => by
    by_cases h : k = "analysisVariables"
    · simpa [removeAllF, h] using
        FieldsSubF.cons k (FieldsSub.emptyArr v) (removeAllF_sub rest)
    · simpa [removeAllF, h] using
        FieldsSubF.cons k (removeAll_sub v) (removeAllF_sub rest)

end

theorem removeLinks_null (p : Option String) :
    remove_links_parent_refs p Json.null = Json.null := by
  simp [remove_links_parent_refs]

theorem removeLinks_bool (p : Option String) (b : Bool) :
    remove_links_parent_refs p (Json.bool b) = Json.bool b := by
  simp [remove_links_parent_refs]

theorem removeLinks_num (p : Option String) (n : Int) :
    remove_links_parent_refs p (Json.num n) = Json.num n := by
  simp [remove_links_parent_refs]

theorem removeLinks_str (p : Option String) (s : String) :
    remove_links_parent_refs p (Json.str s) = Json.str s := by
  simp [remove_links_parent_refs]

theorem removeLinks_arr (p : Option String) (xs : List Json) :
    remove_links_parent_refs p (Json.arr xs) = Json.arr (removeLinksL p xs) := by
  simp [remove_links_parent_refs]

theorem removeLinks_obj (p : Option String) (fs : List (String × Json)) :
    remove_links_parent_refs p (Json.obj fs) = Json.obj (removeLinksF p fs) := by
  simp [remove_links_parent_refs]

theorem removeLinksL_nil (p : Option String) : removeLinksL p [] = [] := by
  simp [removeLinksL]

theorem removeLinksL_cons (p : Option String) (x : Json) (rest : List Json) :
    removeLinksL p (x :: rest) = remove_links_parent_refs p x :: removeLinksL p rest := by
  simp [removeLinksL]

theorem removeLinksF_nil (p : Option String) : removeLinksF p [] = [] := by
  simp [removeLinksF]

theorem removeLinksF_cons_obj_hit (lfs : List (String × Json))
    (rest : List (String × Json)) :
    removeLinksF (some "analysisVariables") (("_links", Json.obj lfs) :: rest)
      = ("_links", Json.obj (shrinkSelf lfs)) :: removeLinksF (some "analysisVariables") rest := by
  simp [removeLinksF]

theorem removeLinksF_cons_obj_miss (p : Option String) (k : String)
    (lfs rest : List (String × Json)) (h : ¬(p = some "analysisVariables" ∧ k = "_links")) :
    removeLinksF p ((k, Json.obj lfs) :: rest)
      = (k, remove_links_parent_refs (some k) (Json.obj lfs)) :: removeLinksF p rest := by
  simp only [removeLinksF]
  rw [if_neg h]

theorem removeLinksF_cons_notObj (p : Option String) (k : String) (v : Json)
    (rest : List (String × Json)) (h : ∀ lfs, v ≠ Json.obj lfs) :
    removeLinksF p ((k, v) :: rest)
      = (k, remove_links_parent_refs (some k) v) :: removeLinksF p rest := by
  cases v with
  | obj lfs => exact absurd rfl (h lfs)
  | null => simp [removeLinksF]
  | bool b => simp [removeLinksF]
  | num n => simp [removeLinksF]
  | str s => simp [removeLinksF]
  | arr xs => simp [removeLinksF]

theorem shrinkSelf_nil : shrinkSelf [] = [] := by simp [shrinkSelf]

theorem shrinkSelf_cons_self (v : Json) (rest : List (String × Json)) :
    shrinkSelf (("self", v) :: rest)
      = [("self", remove_links_parent_refs (some "self") v)] := by
  simp [shrinkSelf]

theorem shrinkSelf_cons_other (k : String) (v : Json) (rest : List (String × Json))
    (h : k ≠ "self") : shrinkSelf ((k, v) :: rest) = shrinkSelf rest := by
  simp [shrinkSelf, h]

mutual

theorem removeLinks_noAV : (p : Option String) → (j : Json) →
    p ≠ some "analysisVariables" → noKeyJ "analysisVariables" j = true →
    remove_links_parent_refs p j = j
  | p, .null, _, _ => removeLinks_null p
  | p, .bool b, _, _ => removeLinks_bool p b
  | p, .num n, _, _ => removeLinks_num p n
  | p, .str s, _, _ => removeLinks_str p s
  | p, .arr xs, hp, h => by rw [removeLinks_arr, removeLinksL_noAV p xs hp h]
  | p, .obj fs, hp, h => by rw [removeLinks_obj, removeLinksF_noAV p fs hp h]

theorem removeLinksL_noAV : (p : Option String) → (xs : List Json) →
    p ≠ some "analysisVariables" → noKeyL "analysisVariables" xs = true →
    removeLinksL p xs = xs
  | p, [], _, _ => removeLinksL_nil p
  | p, x :: rest, hp, h => by
    rw [noKeyL, Bool.and_eq_true] at h
    rw [removeLinksL_cons, removeLinks_noAV p x hp h.1, removeLinksL_noAV p rest hp h.2]

theorem removeLinksF_noAV : (p : Option String) → (fs : List (String × Json)) →
    p ≠ some "analysisVariables" → noKeyF "analysisVariables" fs = true →
    removeLinksF p fs = fs
  | p, [], _, _ => removeLinksF_nil p
  | p, (k, v) :: rest, hp, h => by
    rw [noKeyF, Bool.and_eq_true, Bool.and_eq_true, bne_iff_ne] at h
    obtain ⟨⟨hk, hv⟩, hrest⟩ := h
    have hrec : remove_links_parent_refs (some k) v = v :=
      removeLinks_noAV (some k) v (by simp [hk]) hv
    have hrest2 : removeLinksF p rest = rest := removeLinksF_noAV p rest hp hrest
    cases v with
    | obj lfs =>
      rw [removeLinksF_cons_obj_miss p k lfs rest (fun hc => hp hc.1), hrec, hrest2]
    | null => rw [removeLinksF_cons_notObj p k _ rest (by simp), hrec, hrest2]
    | bool b => rw [removeLinksF_cons_notObj p k _ rest (by simp), hrec, hrest2]
    | num n => rw [removeLinksF_cons_notObj p k _ rest (by simp), hrec, hrest2]
    | str s => rw [removeLinksF_cons_notObj p k _ rest (by simp), hrec, hrest2]
    | arr xs => rw [removeLinksF_cons_notObj p k _ rest (by simp), hrec, hrest2]

end

mutual

theorem removeLinks_sub : (p : Option String) → (j : Json) →
    FieldsSub (remove_links_parent_refs p j) j
  | p, .null => by rw [removeLinks_null p]; exact FieldsSub.refl _
  | p, .bool b => by rw [removeLinks_bool]; exact FieldsSub.refl _
  | p, .num n => by rw [removeLinks_num]; exact FieldsSub.refl _
  | p, .str s => by rw [removeLinks_str]; exact FieldsSub.refl _
  | p, .arr xs => by rw [removeLinks_arr]; exact FieldsSub.arr (removeLinksL_sub p xs)
  | p, .obj fs => by rw [removeLinks_obj]; exact FieldsSub.obj (removeLinksF_sub p fs)
termination_by _ j => sizeOf j

theorem removeLinksL_sub : (p : Option String) → (xs : List Json) →
    FieldsSubL (removeLinksL p xs) xs
  | p, [] => by rw [removeLinksL_nil p]; exact FieldsSubL.nil
  | p, x :: rest => by
    rw [removeLinksL_cons]
    exact FieldsSubL.cons (removeLinks_sub p x) (removeLinksL_sub p rest)
termination_by _ xs => sizeOf xs

theorem removeLinksF_sub : (p : Option String) → (fs : List (String × Json)) →
    FieldsSubF (removeLinksF p fs) fs
  | p, [] => by rw [removeLinksF_nil p]; exact FieldsSubF.nil _
  | p, (k, v) :: rest => by
    cases v with
    | obj lfs =>
      by_cases hc : p = some "analysisVariables" ∧ k = "_links"
      · obtain ⟨hp, hk⟩ := hc
        subst hp; subst hk
        rw [removeLinksF_cons_obj_hit]
        exact FieldsSubF.cons _ (FieldsSub.obj (shrinkSelf_sub lfs))
          (removeLinksF_sub _ rest)
      · rw [removeLinksF_cons_obj_miss p k lfs rest hc]
        exact FieldsSubF.cons _ (removeLinks_sub (some k) (Json.obj lfs))
          (removeLinksF_sub p rest)
    | null =>
      rw [removeLinksF_cons_notObj p k _ rest (by simp)]
      exact FieldsSubF.cons _ (removeLinks_sub (some k) _) (removeLinksF_sub p rest)
    | bool b =>
      rw [removeLinksF_cons_notObj p k _ rest (by simp)]
      exact FieldsSubF.cons _ (removeLinks_sub (some k) _) (removeLinksF_sub p rest)
    | num n =>
      rw [removeLinksF_cons_notObj p k _ rest (by simp)]
      exact FieldsSubF.cons _ (removeLinks_sub (some k) _) (removeLinksF_sub p rest)
    | str s =>
      rw [removeLinksF_cons_notObj p k _ rest (by simp)]
      exact FieldsSubF.cons _ (removeLinks_sub (some k) _) (removeLinksF_sub p rest)
    | arr xs =>
      rw [removeLinksF_cons_notObj p k _ rest (by simp)]
      exact FieldsSubF.cons _ (removeLinks_sub (some k) _) (removeLinksF_sub p rest)
termination_by _ fs => sizeOf fs

theorem shrinkSelf_sub : (lfs : List (String × Json)) → FieldsSubF (shrinkSelf lfs) lfs
  | [] => by rw [shrinkSelf_nil]; exact FieldsSubF.nil _
  | (k, v) :: rest => by
    by_cases h : k = "self"
    · subst h
      rw [shrinkSelf_cons_self]
      exact FieldsSubF.cons _ (removeLinks_sub (some "self") v) (FieldsSubF.nil rest)
    · rw [shrinkSelf_cons_other k v rest h]
      exact FieldsSubF.skip k v (shrinkSelf_sub rest)
termination_by lfs => sizeOf lfs

end

theorem shrinkSelf_noSelf : (lfs : List (String × Json)) →
    List.lookup "self" lfs = none → shrinkSelf lfs = []
  | [], _ => shrinkSelf_nil
  | (k, v) :: rest, h => by
    by_cases hk : k = "self"
    · subst hk
      simp [List.lookup] at h
    · rw [shrinkSelf_cons_other k v rest hk]
      refine shrinkSelf_noSelf rest ?_
      have hbeq : ("self" == k) = false := by simp [Ne.symm hk]
      simpa [List.lookup, hbeq] using h

/-! ## Per-tool outcome handlers (aliases of the shared family handlers) -/

def get_sdtmig_class_info_respond : Outcome → String := respondSliceData

def get_sdtmig_dataset_info_respond : Outcome → String := respondSliceData

def get_sdtm_model_class_info_respond : Outcome → String := respondSliceData

def get_sdtm_model_dataset_info_respond : Outcome → String := respondSliceData

def get_sendig_class_info_respond : Outcome → String := respondSliceData

def get_sendig_dataset_info_respond : Outcome → String := respondSliceData

def get_cdashig_class_info_respond : Outcome → String := respondSliceData

def get_cdashig_domain_info_respond : Outcome → String := respondSliceData

def get_cdashig_scenarios_info_respond : Outcome → String := respondSliceData

def get_cdash_model_class_info_respond : Outcome → String := respondSliceData

def get_cdash_model_domain_info_respond : Outcome → String := respondSliceData

def get_CDISC_Library_api_product_list_respond : Outcome → String := respondProducts

def get_adam_product_info_respond : Outcome → String :=
  respondSliceStr remove_all_analysis_variables

def get_adam_datastructure_info_respond : Outcome → String :=
  respondSliceStr (remove_links_parent_refs none)

def get_qrs_info_respond : Outcome → String := respondSliceStr (fun d => d)

def get_package_ct_info_respond : Outcome → String := respondCT ctMinimize

def get_package_ct_codelist_info_respond : Outcome → String :=
  respondCT (fun d => Except.ok d)

def get_package_ct_codelist_term_info_respond : Outcome → String :=
  respondCT (fun d => Except.ok d)

/-! ## Small helpers for the claim statements -/

theorem truthy_some_of_ne {k : String} (h : k ≠ "") : truthy (some k) = true := by
  simp [truthy, h]

theorem lookupNone_of_not_mem {α : Type} :
    (l : List (String × α)) → (a : String) → a ∉ l.map Prod.fst → List.lookup a l = none
  | [], _, _ => rfl
  | (k, v) :: rest, a, h => by
    simp only [List.map, List.mem_cons, not_or] at h
    have hbeq : (a == k) = false := by simp [h.1]
    simp [List.lookup, hbeq, lookupNone_of_not_mem rest a h.2]

mutual

/-- `avClearedJ j`: every dict entry named `analysisVariables` anywhere in
`j` already holds the empty list. -/
def avClearedJ : Json → Bool
  | .arr xs => avClearedL xs
  | .obj fs => avClearedF fs
  | _ => true

def avClearedL : List Json → Bool
  | [] => true
  | x :: rest => avClearedJ x && avClearedL rest

def avClearedF : List (String × Json) → Bool
  | [] => true
  | (k, v) :: rest =>
    ((k != "analysisVariables") || (match v with | .arr [] => true | _ => false))
      && avClearedJ v && avClearedF rest

end

mutual

theorem removeAll_cleared : (j : Json) →
    avClearedJ (remove_all_analysis_variables j) = true
  | .null => rfl
  | .bool _ => rfl
  | .num _ => rfl
  | .str _ => rfl
  | .arr xs => by
    simpa [remove_all_analysis_variables, avClearedJ] using removeAllL_cleared xs
  | .obj fs => by
    simpa [remove_all_analysis_variables, avClearedJ] using removeAllF_cleared fs

theorem removeAllL_cleared : (xs : List Json) → avClearedL (removeAllL xs) = true
  | [] => rfl
  | x :: rest => by
    simp [removeAllL, avClearedL, removeAll_cleared x, removeAllL_cleared rest]

theorem removeAllF_cleared : (fs : List (String × Json)) → avClearedF (removeAllF fs) = true
  | [] => rfl
  | (k, v) :: rest => by
    by_cases h : k = "analysisVariables"
    · simp [removeAllF, h, avClearedF, avClearedJ, avClearedL, removeAllF_cleared rest]
    · simp [removeAllF, h, avClearedF, removeAll_cleared v, removeAllF_cleared rest]

end

/-! ## Claim C10 -/

/-- C10: applying Subtree-clear (`remove_all_analysis_variables`) twice
yields the same result as applying it once; moreover after one application
every `analysisVariables` field already holds the empty sequence. -/
theorem c10_subtree_clear_idempotent (j : Json) :
    remove_all_analysis_variables (remove_all_analysis_variables j)
        = remove_all_analysis_variables j
    ∧ avClearedJ (remove_all_analysis_variables j) = true :=
  ⟨removeAll_idem j, removeAll_cleared j⟩

/-! ## Claim C8 -/

/-- C8: for the two-level allow-list tools (`get_adam_datastructure_info`
over product→datastructure, `get_qrs_info` over instrument→version), an
invalid parent yields the error message enumerating the valid parents, and a
valid parent with an invalid child yields the error message enumerating that
parent's valid children; in both cases the result is a `Step.reply`, so no
HTTP request is issued. -/
theorem c8_two_level_validation (key : String) (hk : key ≠ "") :
    (∀ product datastructure : String,
      product ∉ ALLOWED_adam_datastructure_combinations.map Prod.fst →
      get_adam_datastructure_info_step (some key) product datastructure
        = Step.reply ("Error: Invalid product '" ++ product ++ "'. Valid products are: "
            ++ String.intercalate ", " (ALLOWED_adam_datastructure_combinations.map Prod.fst)))
    ∧ (∀ product datastructure allowed,
      List.lookup product ALLOWED_adam_datastructure_combinations = some allowed →
      datastructure ∉ allowed →
      get_adam_datastructure_info_step (some key) product datastructure
        = Step.reply ("Error: Invalid datastructure '" ++ datastructure ++ "' for product '"
            ++ product ++ "'. Valid datastructures are: " ++ String.intercalate ", " allowed))
    ∧ (∀ instrument version : String,
      instrument ∉ ALLOWED_qrs_combinations.map Prod.fst →
      get_qrs_info_step (some key) instrument version
        = Step.reply ("Error: Invalid instrument '" ++ instrument ++ "'. Valid instruments are: "
            ++ String.intercalate ", " (ALLOWED_qrs_combinations.map Prod.fst)))
    ∧ (∀ instrument version allowed,
      List.lookup instrument ALLOWED_qrs_combinations = some allowed →
      version ∉ allowed →
      get_qrs_info_step (some key) instrument version
        = Step.reply ("Error: Invalid version '" ++ version ++ "' for instrument '"
            ++ instrument ++ "'. Valid versions are: " ++ String.intercalate ", " allowed)) := by
  refine ⟨?_, ?_, ?_, ?_⟩
  · intro product datastructure h
    simp [get_adam_datastructure_info_step, truthy_some_of_ne hk,
      lookupNone_of_not_mem _ _ h]
  · intro product datastructure allowed hl hd
    simp [get_adam_datastructure_info_step, truthy_some_of_ne hk, hl, hd]
  · intro instrument version h
    simp [get_qrs_info_step, truthy_some_of_ne hk, lookupNone_of_not_mem _ _ h]
  · intro instrument version allowed hl hv
    simp [get_qrs_info_step, truthy_some_of_ne hk, hl, hv]

/-- C8 witness: concrete invalid parents and children. -/
theorem c8_two_level_validation_witness :
    get_adam_datastructure_info_step (some "k") "not-a-product" "BDS"
      = Step.reply ("Error: Invalid product 'not-a-product'. Valid products are: "
          ++ String.intercalate ", " (ALLOWED_adam_datastructure_combinations.map Prod.fst))
    ∧ get_adam_datastructure_info_step (some "k") "adamig-1-0" "ADAE"
      = Step.reply ("Error: Invalid datastructure 'ADAE' for product 'adamig-1-0'. "
          ++ "Valid datastructures are: " ++ String.intercalate ", " ["ADSL", "BDS"])
    ∧ get_qrs_info_step (some "k") "NOPE99" "1-0"
      = Step.reply ("Error: Invalid instrument 'NOPE99'. Valid instruments are: "
          ++ String.intercalate ", " (ALLOWED_qrs_combinations.map Prod.fst))
    ∧ get_qrs_info_step (some "k") "AIMS01" "1-0"
      = Step.reply ("Error: Invalid version '1-0' for instrument 'AIMS01'. "
          ++ "Valid versions are: " ++ String.intercalate ", " ["2-0"]) := by
  obtain ⟨h1, h2, h3, h4⟩ := c8_two_level_validation "k" (by decide)
  refine ⟨h1 _ _ (by decide), ?_, h3 _ _ (by decide), ?_⟩
  · have := h2 "adamig-1-0" "ADAE" ["ADSL", "BDS"] (by decide) (by decide)
    rw [this]
    decide
  · have := h4 "AIMS01" "1-0" ["2-0"] (by decide) (by decide)
    rw [this]
    decide

/-! ## Claim C2 -/

/-- C2 counterexample: parameters with only docstring enumerations are not
validated, and a request is issued for values outside those enumerations.
`get_sdtmig_class_info`'s documented versions are
3-1-2, 3-1-3, 3-2, 3-3, 3-4, ap-1-0, md-1-0, md-1-1, yet version `9-9-9` is
interpolated into the URL and requested; `get_cdashig_scenarios_info`
requests any scenario value whatsoever. -/
theorem c2_counterexample :
    get_sdtmig_class_info_step (some "key") "9-9-9" none
      = Step.request "https://api.library.cdisc.org/api/mdr/sdtmig/9-9-9/classes"
    ∧ get_cdashig_scenarios_info_step (some "key") "2-2" (some "NOT-A-SCENARIO")
      = Step.request "https://api.library.cdisc.org/api/mdr/cdashig/2-2/scenarios/NOT-A-SCENARIO" := by
  exact ⟨rfl, rfl⟩

/-- C2 amended: only the parameters checked against a coded allow-list
(className, dataset, domain(s), the ADaM product→datastructure and QRS
instrument→version pairs, and the CT package name) are rejected with a
descriptive error and no request; the `version` parameters, `scenario`,
the ADaM product of `get_adam_product_info`, and `codelist`/`term` are
interpolated into the URL without validation, so a request is issued for
any value. -/
theorem c2_amended (key : String) (hk : key ≠ "") :
    (∀ version cn, cn ≠ "" → cn ∉ sdtmigClassList →
      get_sdtmig_class_info_step (some key) version (some cn)
        = Step.reply ("Error: className is invalid, got '" ++ cn ++ "'"))
    ∧ (∀ version ds, ds ≠ "" → ds ∉ sdtmigDatasetList →
      get_sdtmig_dataset_info_step (some key) version ds
        = Step.reply ("Error: dataset is invalid, got '" ++ ds ++ "'"))
    ∧ (∀ version cn, cn ≠ "" → cn ∉ sdtmModelClassList →
      get_sdtm_model_class_info_step (some key) version (some cn)
        = Step.reply ("Error: className is invalid, got '" ++ cn ++ "'"))
    ∧ (∀ version ds, ds ≠ "" → ds ∉ sdtmModelDatasetList →
      get_sdtm_model_dataset_info_step (some key) version (some ds)
        = Step.reply ("Error: dataset is invalid, got '" ++ ds ++ "'"))
    ∧ (∀ version cn, cn ≠ "" → cn ∉ sendigClassList →
      get_sendig_class_info_step (some key) version (some cn)
        = Step.reply ("Error: className is invalid, got '" ++ cn ++ "'"))
    ∧ (∀ version ds, ds ≠ "" → ds ∉ sendigDatasetList →
      get_sendig_dataset_info_step (some key) version (some ds)
        = Step.reply ("Error: dataset is invalid, got '" ++ ds ++ "'"))
    ∧ (∀ version cn, cn ≠ "" → cn ∉ cdashigClassList →
      get_cdashig_class_info_step (some key) version (some cn)
        = Step.reply ("Error: className is invalid, got '" ++ cn ++ "'"))
    ∧ (∀ version dm, dm ≠ "" → dm ∉ cdashigDomainList →
      get_cdashig_domain_info_step (some key) version (some dm)
        = Step.reply ("Error: domains is invalid, got '" ++ dm ++ "'"))
    ∧ (∀ version cn, cn ≠ "" → cn ∉ cdashModelClassList →
      get_cdash_model_class_info_step (some key) version (some cn)
        = Step.reply ("Error: className is invalid, got '" ++ cn ++ "'"))
    ∧ (∀ version dm, dm ≠ "" → dm ∉ cdashModelDomainList →
      get_cdash_model_domain_info_step (some key) version (some dm)
        = Step.reply ("Error: domain is invalid, got '" ++ dm ++ "'"))
    ∧ (∀ pkg, pkg ∉ ct_package →
      get_package_ct_info_step (some key) pkg
        = Step.reply ("Error: Package '" ++ pkg ++ "' is invalid or not found in known packages."))
    ∧ (∀ pkg cl, pkg ∉ ct_package →
      get_package_ct_codelist_info_step (some key) pkg cl
        = Step.reply ("Error: Package '" ++ pkg ++ "' is invalid or not found in known packages."))
    ∧ (∀ pkg cl tm, pkg ∉ ct_package →
      get_package_ct_codelist_term_info_step (some key) pkg cl tm
        = Step.reply ("Error: Package '" ++ pkg ++ "' is invalid or not found in known packages."))
    ∧ (∀ version,
      get_sdtmig_class_info_step (some key) version none
        = Step.request (libBase ++ "/sdtmig/" ++ version ++ "/classes"))
    ∧ (∀ version sc, sc ≠ "" →
      get_cdashig_scenarios_info_step (some key) version (some sc)
        = Step.request (libBase ++ "/cdashig/" ++ version ++ "/scenarios" ++ "/" ++ sc))
    ∧ (∀ product,
      get_adam_product_info_step (some key) product
        = Step.request (libBase ++ "/adam/" ++ product))
    ∧ (∀ pkg cl, pkg ∈ ct_package →
      get_package_ct_codelist_info_step (some key) pkg cl
        = Step.request (libBase ++ "/ct/packages/" ++ pkg ++ "/codelists/" ++ cl))
    ∧ (∀ pkg cl tm, pkg ∈ ct_package →
      get_package_ct_codelist_term_info_step (some key) pkg cl tm
        = Step.request (libBase ++ "/ct/packages/" ++ pkg ++ "/codelists/" ++ cl
            ++ "/terms/" ++ tm)) := by
  have ht := truthy_some_of_ne hk
  refine ⟨?_, ?_, ?_, ?_, ?_, ?_, ?_, ?_, ?_, ?_, ?_, ?_, ?_, ?_, ?_, ?_, ?_, ?_⟩
  · intro version cn h1 h2
    simp [get_sdtmig_class_info_step, ht, h1, h2]
  · intro version ds h1 h2
    simp [get_sdtmig_dataset_info_step, ht, h1, h2]
  · intro version cn h1 h2
    simp [get_sdtm_model_class_info_step, ht, h1, h2]
  · intro version ds h1 h2
    simp [get_sdtm_model_dataset_info_step, ht, h1, h2]
  · intro version cn h1 h2
    simp [get_sendig_class_info_step, ht, h1, h2]
  · intro version ds h1 h2
    simp [get_sendig_dataset_info_step, ht, h1, h2]
  · intro version cn h1 h2
    simp [get_cdashig_class_info_step, ht, h1, h2]
  · intro version dm h1 h2
    simp [get_cdashig_domain_info_step, ht, h1, h2]
  · intro version cn h1 h2
    simp [get_cdash_model_class_info_step, ht, h1, h2]
  · intro version dm h1 h2
    simp [get_cdash_model_domain_info_step, ht, h1, h2]
  · intro pkg h
    simp [get_package_ct_info_step, ht, h]
  · intro pkg cl h
    simp [get_package_ct_codelist_info_step, ht, h]
  · intro pkg cl tm h
    simp [get_package_ct_codelist_term_info_step, ht, h]
  · intro version
    simp [get_sdtmig_class_info_step, ht]
  · intro version sc h
    simp [get_cdashig_scenarios_info_step, ht, h]
  · intro product
    simp [get_adam_product_info_step, ht]
  · intro pkg cl h
    simp [get_package_ct_codelist_info_step, ht, h]
  · intro pkg cl tm h
    simp [get_package_ct_codelist_term_info_step, ht, h]

/-- C2 witness: each validated rejection and each unvalidated pass-through
at concrete inputs. -/
theorem c2_amended_witness :
    get_sdtmig_class_info_step (some "k") "3-4" (some "NotAClass")
      = Step.reply "Error: className is invalid, got 'NotAClass'"
    ∧ get_sdtmig_dataset_info_step (some "k") "3-4" "ZZ"
      = Step.reply "Error: dataset is invalid, got 'ZZ'"
    ∧ get_sdtm_model_class_info_step (some "k") "2-0" (some "NotAClass")
      = Step.reply "Error: className is invalid, got 'NotAClass'"
    ∧ get_sdtm_model_dataset_info_step (some "k") "2-0" (some "ZZ")
      = Step.reply "Error: dataset is invalid, got 'ZZ'"
    ∧ get_sendig_class_info_step (some "k") "3-1" (some "NotAClass")
      = Step.reply "Error: className is invalid, got 'NotAClass'"
    ∧ get_sendig_dataset_info_step (some "k") "3-1" (some "ZZ")
      = Step.reply "Error: dataset is invalid, got 'ZZ'"
    ∧ get_cdashig_class_info_step (some "k") "2-3" (some "NotAClass")
      = Step.reply "Error: className is invalid, got 'NotAClass'"
    ∧ get_cdashig_domain_info_step (some "k") "2-3" (some "ZZ")
      = Step.reply "Error: domains is invalid, got 'ZZ'"
    ∧ get_cdash_model_class_info_step (some "k") "1-3" (some "NotAClass")
      = Step.reply "Error: className is invalid, got 'NotAClass'"
    ∧ get_cdash_model_domain_info_step (some "k") "1-3" (some "ZZ")
      = Step.reply "Error: domain is invalid, got 'ZZ'"
    ∧ get_package_ct_info_step (some "k") "nosuchct-2020-01-01"
      = Step.reply "Error: Package 'nosuchct-2020-01-01' is invalid or not found in known packages."
    ∧ get_package_ct_codelist_info_step (some "k") "nosuchct-2020-01-01" "C66731"
      = Step.reply "Error: Package 'nosuchct-2020-01-01' is invalid or not found in known packages."
    ∧ get_package_ct_codelist_term_info_step (some "k") "nosuchct-2020-01-01" "C66731" "C25301"
      = Step.reply "Error: Package 'nosuchct-2020-01-01' is invalid or not found in known packages."
    ∧ get_sdtmig_class_info_step (some "k") "9-9-9" none
      = Step.request (libBase ++ "/sdtmig/9-9-9/classes")
    ∧ get_cdashig_scenarios_info_step (some "k") "2-2" (some "AnythingGoes")
      = Step.request (libBase ++ "/cdashig/2-2/scenarios/AnythingGoes")
    ∧ get_adam_product_info_step (some "k") "not-an-adam-product"
      = Step.request (libBase ++ "/adam/not-an-adam-product")
    ∧ get_package_ct_codelist_info_step (some "k") "sdtmct-2025-09-26" "C66731"
      = Step.request (libBase ++ "/ct/packages/sdtmct-2025-09-26/codelists/C66731")
    ∧ get_package_ct_codelist_term_info_step (some "k") "sdtmct-2025-09-26" "C66731" "C25301"
      = Step.request (libBase ++ "/ct/packages/sdtmct-2025-09-26/codelists/C66731/terms/C25301") := by
  obtain ⟨h1, h2, h3, h4, h5, h6, h7, h8, h9, h10, h11, h12, h13, h14, h15, h16, h17, h18⟩ :=
    c2_amended "k" (by decide)
  exact ⟨h1 _ _ (by decide) (by decide), h2 _ _ (by decide) (by decide),
    h3 _ _ (by decide) (by decide), h4 _ _ (by decide) (by decide),
    h5 _ _ (by decide) (by decide), h6 _ _ (by decide) (by decide),
    h7 _ _ (by decide) (by decide), h8 _ _ (by decide) (by decide),
    h9 _ _ (by decide) (by decide), h10 _ _ (by decide) (by decide),
    h11 _ (by decide), h12 _ _ (by decide), h13 _ _ _ (by decide),
    h14 _, by rw [h15 "2-2" "AnythingGoes" (by decide)]; decide, h16 _,
    h17 _ _ (by decide), h18 _ _ _ (by decide)⟩

/-! ## Claim C4 -/

/-- C4 counterexample: `get_CDISC_Library_api_product_list` never checks the
credential; with the environment variable unset it still proceeds to the
HTTP call (the unset key is merely placed in the request header) instead of
returning the fixed configuration-error string. -/
theorem c4_counterexample :
    get_CDISC_Library_api_product_list_step none
      = Step.request "https://api.library.cdisc.org/api/mdr/products?expand=false"
    ∧ get_CDISC_Library_api_product_list_step none ≠ Step.reply missingKeyMsg := by
  refine ⟨rfl, ?_⟩
  intro h
  simp [get_CDISC_Library_api_product_list_step] at h

/-- C4 amended: every tool except `get_CDISC_Library_api_product_list`
returns the fixed string "Error: CDISC_API_KEY environment variable not
found." and issues no request when the credential is unset; the product-list
tool has no such check and issues its request regardless. -/
theorem c4_amended :
    (∀ version className,
      get_sdtmig_class_info_step none version className = Step.reply missingKeyMsg)
    ∧ (∀ version dataset,
      get_sdtmig_dataset_info_step none version dataset = Step.reply missingKeyMsg)
    ∧ (∀ version className,
      get_sdtm_model_class_info_step none version className = Step.reply missingKeyMsg)
    ∧ (∀ version dataset,
      get_sdtm_model_dataset_info_step none version dataset = Step.reply missingKeyMsg)
    ∧ (∀ version className,
      get_sendig_class_info_step none version className = Step.reply missingKeyMsg)
    ∧ (∀ version dataset,
      get_sendig_dataset_info_step none version dataset = Step.reply missingKeyMsg)
    ∧ (∀ version className,
      get_cdashig_class_info_step none version className = Step.reply missingKeyMsg)
    ∧ (∀ version domains,
      get_cdashig_domain_info_step none version domains = Step.reply missingKeyMsg)
    ∧ (∀ version scenario,
      get_cdashig_scenarios_info_step none version scenario = Step.reply missingKeyMsg)
    ∧ (∀ version className,
      get_cdash_model_class_info_step none version className = Step.reply missingKeyMsg)
    ∧ (∀ version domain,
      get_cdash_model_domain_info_step none version domain = Step.reply missingKeyMsg)
    ∧ (∀ product,
      get_adam_product_info_step none product = Step.reply missingKeyMsg)
    ∧ (∀ product datastructure,
      get_adam_datastructure_info_step none product datastructure = Step.reply missingKeyMsg)
    ∧ (∀ instrument version,
      get_qrs_info_step none instrument version = Step.reply missingKeyMsg)
    ∧ (∀ package,
      get_package_ct_info_step none package = Step.reply missingKeyMsg)
    ∧ (∀ package codelist,
      get_package_ct_codelist_info_step none package codelist = Step.reply missingKeyMsg)
    ∧ (∀ package codelist term2,
      get_package_ct_codelist_term_info_step none package codelist term2 = Step.reply missingKeyMsg)
    ∧ get_CDISC_Library_api_product_list_step none
      = Step.request "https://api.library.cdisc.org/api/mdr/products?expand=false" := by
  exact ⟨fun _ _ => rfl, fun _ _ => rfl, fun _ _ => rfl, fun _ _ => rfl, fun _ _ => rfl,
    fun _ _ => rfl, fun _ _ => rfl, fun _ _ => rfl, fun _ _ => rfl, fun _ _ => rfl,
    fun _ _ => rfl, fun _ => rfl, fun _ _ => rfl, fun _ _ => rfl, fun _ => rfl,
    fun _ _ => rfl, fun _ _ _ => rfl, rfl⟩

/-! ## Claim C7 -/

theorem headChar_lit_append (s t : String) (c : Char) (h : s.data.head? = some c) :
    headChar (s ++ t) = some c := by
  show (s ++ t).data.head? = some c
  rw [string_data_append]
  cases hd : s.data with
  | nil => rw [hd] at h; cases h
  | cons a as =>
    rw [hd] at h
    simpa using h

theorem headChar_sliceData_status (c : Nat) (b : String) :
    headChar (respondSliceData (Outcome.httpStatus c b)) = some 'A' := by
  show headChar ("API Error: HTTP " ++ toString c ++ " - " ++ b) = some 'A'
  rw [string_append_assoc, string_append_assoc]
  exact headChar_lit_append _ _ 'A' (by decide)

theorem headChar_sliceData_req (m : String) :
    headChar (respondSliceData (Outcome.reqError m)) = some 'N' := by
  show headChar ("Network Error: " ++ m) = some 'N'
  exact headChar_lit_append _ _ 'N' (by decide)

theorem headChar_sliceData_exn (m : String) :
    headChar (respondSliceData (Outcome.exn m)) = some 'E' := by
  show headChar ("Execution Error: " ++ m) = some 'E'
  exact headChar_lit_append _ _ 'E' (by decide)

theorem headChar_products_timeout (m : String) :
    headChar (respondProducts (Outcome.timeout m)) = some 'E' := rfl

theorem headChar_products_status (c : Nat) (b : String) :
    headChar (respondProducts (Outcome.httpStatus c b)) = some 'A' := by
  show headChar ("API Error: CDISC Library returned status " ++ toString c ++ ".") = some 'A'
  rw [string_append_assoc]
  exact headChar_lit_append _ _ 'A' (by decide)

theorem headChar_products_req (m : String) :
    headChar (respondProducts (Outcome.reqError m)) = some 'N' := by
  show headChar ("Network Error: Unable to connect to CDISC Library. Details: " ++ m) = some 'N'
  exact headChar_lit_append _ _ 'N' (by decide)

theorem headChar_products_exn (m : String) :
    headChar (respondProducts (Outcome.exn m)) = some 'U' := by
  show headChar ("Unexpected Error: " ++ m) = some 'U'
  exact headChar_lit_append _ _ 'U' (by decide)

/-- C7 counterexample: in every tool except the product list there is no
`except httpx.TimeoutException` clause; a timeout is an `httpx.RequestError`
and is caught by the Network-Error clause, producing the very same string as
any other transport failure — not a timeout-specific error. -/
theorem c7_counterexample :
    get_sdtmig_class_info_respond (Outcome.timeout "x")
      = get_sdtmig_class_info_respond (Outcome.reqError "x") := rfl

/-- C7 amended: `get_CDISC_Library_api_product_list` maps its four failure
categories to four pairwise-distinct labelled strings (timeout included);
every other tool maps timeout to the same "Network Error: " string as any
other transport failure, while its non-2xx, transport and unexpected
categories keep pairwise-distinct labels; a simulated upstream 404 yields a
string that begins with "API Error" and contains "404". -/
theorem c7_amended :
    (∀ m, respondProducts (Outcome.timeout m)
        = "Error: The request to CDISC Library timed out. Please try again later.")
    ∧ (∀ m c b m2 m3,
        respondProducts (Outcome.timeout m) ≠ respondProducts (Outcome.httpStatus c b)
        ∧ respondProducts (Outcome.timeout m) ≠ respondProducts (Outcome.reqError m2)
        ∧ respondProducts (Outcome.timeout m) ≠ respondProducts (Outcome.exn m3)
        ∧ respondProducts (Outcome.httpStatus c b) ≠ respondProducts (Outcome.reqError m2)
        ∧ respondProducts (Outcome.httpStatus c b) ≠ respondProducts (Outcome.exn m3)
        ∧ respondProducts (Outcome.reqError m2) ≠ respondProducts (Outcome.exn m3))
    ∧ (∀ m, respondSliceData (Outcome.timeout m) = respondSliceData (Outcome.reqError m))
    ∧ (∀ shape m, respondSliceStr shape (Outcome.timeout m)
        = respondSliceStr shape (Outcome.reqError m))
    ∧ (∀ sh m, respondCT sh (Outcome.timeout m) = respondCT sh (Outcome.reqError m))
    ∧ (∀ c b m, respondSliceData (Outcome.httpStatus c b) ≠ respondSliceData (Outcome.reqError m))
    ∧ (∀ c b m, respondSliceData (Outcome.httpStatus c b) ≠ respondSliceData (Outcome.exn m))
    ∧ (∀ m m2, respondSliceData (Outcome.reqError m) ≠ respondSliceData (Outcome.exn m2))
    ∧ (∀ b, respondSliceData (Outcome.httpStatus 404 b) = "API Error: HTTP " ++ "404" ++ " - " ++ b)
    ∧ (∀ b, ∃ t, respondSliceData (Outcome.httpStatus 404 b) = "API Error" ++ t)
    ∧ (∀ b, ∃ u v2, respondSliceData (Outcome.httpStatus 404 b) = u ++ ("404" ++ v2)) := by
  refine ⟨fun _ => rfl, ?_, fun _ => rfl, fun _ _ => rfl, fun _ _ => rfl,
    ?_, ?_, ?_, fun _ => rfl, ?_, ?_⟩
  · intro m c b m2 m3
    refine ⟨?_, ?_, ?_, ?_, ?_, ?_⟩
    · exact ne_of_headChar (by rw [headChar_products_timeout, headChar_products_status]; decide)
    · exact ne_of_headChar (by rw [headChar_products_timeout, headChar_products_req]; decide)
    · exact ne_of_headChar (by rw [headChar_products_timeout, headChar_products_exn]; decide)
    · exact ne_of_headChar (by rw [headChar_products_status, headChar_products_req]; decide)
    · exact ne_of_headChar (by rw [headChar_products_status, headChar_products_exn]; decide)
    · exact ne_of_headChar (by rw [headChar_products_req, headChar_products_exn]; decide)
  · intro c b m
    exact ne_of_headChar (by rw [headChar_sliceData_status, headChar_sliceData_req]; decide)
  · intro c b m
    exact ne_of_headChar (by rw [headChar_sliceData_status, headChar_sliceData_exn]; decide)
  · intro m m2
    exact ne_of_headChar (by rw [headChar_sliceData_req, headChar_sliceData_exn]; decide)
  · intro b
    refine ⟨": HTTP 404 - " ++ b, ?_⟩
    have h0 : respondSliceData (Outcome.httpStatus 404 b)
        = "API Error: HTTP " ++ "404" ++ " - " ++ b := rfl
    rw [h0]
    have hpre : "API Error: HTTP " ++ "404" ++ " - " = "API Error" ++ ": HTTP 404 - " := by decide
    calc ("API Error: HTTP " ++ "404" ++ " - ") ++ b
        = ("API Error" ++ ": HTTP 404 - ") ++ b := by rw [hpre]
      _ = "API Error" ++ (": HTTP 404 - " ++ b) := string_append_assoc _ _ _
  · intro b
    refine ⟨"API Error: HTTP ", " - " ++ b, ?_⟩
    have h0 : respondSliceData (Outcome.httpStatus 404 b)
        = "API Error: HTTP " ++ "404" ++ " - " ++ b := rfl
    rw [h0, string_append_assoc, string_append_assoc]

/-! ## Claim C3 -/

/-- C3 counterexample: Field-whitelist-flatten invents fields.  On the input
`{}` (no `codelists` field at any node) the minimization of
`get_package_ct_info` returns `{"codelists": []}`, whose root node has a
field name (`codelists`) that is not present at the root node of the input,
so the shaping relation `FieldsSub` fails. -/
theorem c3_counterexample :
    ctMinimize (Json.obj []) = Except.ok (Json.obj [("codelists", Json.arr [])])
    ∧ ¬ FieldsSub (Json.obj [("codelists", Json.arr [])]) (Json.obj []) := by
  refine ⟨rfl, ?_⟩
  intro h
  cases h with
  | obj hf => cases hf

/-- C3 amended: Subtree-clear and Link-prune never invent or reorder fields
(`FieldsSub` relates output to input for every tree and every parent key);
Field-whitelist-flatten instead rebuilds its output against a fixed schema,
inserting the field names `codelists`, `conceptId`, `submissionValue` and
`terms` (with `null`/empty values) even when the input lacks them, in a
fixed order regardless of the input's order. -/
theorem c3_amended :
    (∀ j, FieldsSub (remove_all_analysis_variables j) j)
    ∧ (∀ p j, FieldsSub (remove_links_parent_refs p j) j)
    ∧ ctMinimize (Json.obj []) = Except.ok (Json.obj [("codelists", Json.arr [])])
    ∧ minCl (Json.obj [])
      = Except.ok (Json.obj [("conceptId", Json.null), ("submissionValue", Json.null),
          ("terms", Json.arr [])])
    ∧ minTerm (Json.obj [("submissionValue", Json.str "MG"), ("conceptId", Json.str "C25301")])
      = Except.ok (Json.obj [("conceptId", Json.str "C25301"),
          ("submissionValue", Json.str "MG")]) :=
  ⟨removeAll_sub, removeLinks_sub, rfl, rfl, rfl⟩

/-! ## Claim C5 -/

/-- C5 counterexample: for the input `{}`, which contains no `codelists`
field at all, Field-whitelist-flatten does not return the input unchanged:
it returns `{"codelists": []}`. -/
theorem c5_counterexample :
    noKeyJ "codelists" (Json.obj []) = true
    ∧ ctMinimize (Json.obj []) = Except.ok (Json.obj [("codelists", Json.arr [])])
    ∧ ctMinimize (Json.obj []) ≠ Except.ok (Json.obj []) := by
  refine ⟨rfl, rfl, ?_⟩
  have he : ctMinimize (Json.obj [])
      = Except.ok (Json.obj [("codelists", Json.arr [])]) := rfl
  rw [he]
  simp

/-- C5 amended: on inputs with no occurrence of the target field
`analysisVariables`, Subtree-clear and Link-prune (called as in the source,
with parent key `None`) return the input unchanged; Field-whitelist-flatten
always rebuilds `{"codelists": ...}` and so does not return an input without
a `codelists` field unchanged. -/
theorem c5_amended :
    (∀ j, noKeyJ "analysisVariables" j = true → remove_all_analysis_variables j = j)
    ∧ (∀ j, noKeyJ "analysisVariables" j = true → remove_links_parent_refs none j = j)
    ∧ ctMinimize (Json.obj []) = Except.ok (Json.obj [("codelists", Json.arr [])]) := by
  refine ⟨removeAll_noAV, ?_, rfl⟩
  intro j h
  exact removeLinks_noAV none j (by simp) h

/-- C5 witness: a concrete tree with no `analysisVariables` field is
returned unchanged by both recursive shapers. -/
theorem c5_amended_witness :
    noKeyJ "analysisVariables"
      (Json.obj [("x", Json.arr [Json.obj [("_links", Json.str "y")]])]) = true
    ∧ remove_all_analysis_variables
        (Json.obj [("x", Json.arr [Json.obj [("_links", Json.str "y")]])])
      = Json.obj [("x", Json.arr [Json.obj [("_links", Json.str "y")]])]
    ∧ remove_links_parent_refs none
        (Json.obj [("x", Json.arr [Json.obj [("_links", Json.str "y")]])])
      = Json.obj [("x", Json.arr [Json.obj [("_links", Json.str "y")]])] := by
  have h : noKeyJ "analysisVariables"
      (Json.obj [("x", Json.arr [Json.obj [("_links", Json.str "y")]])]) = true := rfl
  exact ⟨h, c5_amended.1 _ h, c5_amended.2.1 _ h⟩

/-! ## Claim C9 -/

theorem removeLinksL_eq_map (p : Option String) :
    (xs : List Json) → removeLinksL p xs = xs.map (remove_links_parent_refs p)
  | [] => by rw [removeLinksL_nil p]; rfl
  | x :: rest => by rw [removeLinksL_cons, removeLinksL_eq_map p rest]; rfl

/-- C9 counterexample: the retained `self` value is itself still walked (the
source recurses into the updated dict), so when `A` contains a nested
`analysisVariables` list the transformed `_links` is `{"self": A'}` with
`A' ≠ A`, not `{"self": A}` as claimed.  Here `A`'s nested `_links` loses
its `x` entry. -/
theorem c9_counterexample :
    remove_links_parent_refs (some "analysisVariables")
      (Json.obj [("_links", Json.obj
        [("self", Json.obj [("analysisVariables", Json.arr
            [Json.obj [("_links", Json.obj [("self", Json.str "s"), ("x", Json.str "o")])]])]),
         ("other", Json.str "b")])])
      ≠ Json.obj [("_links", Json.obj
        [("self", Json.obj [("analysisVariables", Json.arr
            [Json.obj [("_links", Json.obj [("self", Json.str "s"), ("x", Json.str "o")])]])])])] := by
  simp [remove_links_parent_refs, removeLinksF, removeLinksL, shrinkSelf]

theorem removeLinks_links_self_other (A B : Json) :
    remove_links_parent_refs (some "analysisVariables")
      (Json.obj [("_links", Json.obj [("self", A), ("other", B)])])
    = Json.obj [("_links", Json.obj [("self", remove_links_parent_refs (some "self") A)])] := by
  simp [remove_links_parent_refs, removeLinksF, shrinkSelf]

/-- C9 amended: under parent key `analysisVariables`, a dict whose `_links`
is `{"self": A, "other": B}` has its `_links` transformed to
`{"self": A'}` where `A'` is `A` after the same walk (so exactly
`{"self": A}` whenever `A` contains no nested `analysisVariables` field),
and to `{}` when no `self` entry exists; under any other parent key a tree
without `analysisVariables` occurrences is untouched; list elements are
visited with the enclosing parent key passed through unchanged. -/
theorem c9_amended :
    (∀ A B, remove_links_parent_refs (some "analysisVariables")
        (Json.obj [("_links", Json.obj [("self", A), ("other", B)])])
      = Json.obj [("_links", Json.obj [("self", remove_links_parent_refs (some "self") A)])])
    ∧ (∀ A B, noKeyJ "analysisVariables" A = true →
      remove_links_parent_refs (some "analysisVariables")
        (Json.obj [("_links", Json.obj [("self", A), ("other", B)])])
      = Json.obj [("_links", Json.obj [("self", A)])])
    ∧ (∀ lfs, List.lookup "self" lfs = none →
      remove_links_parent_refs (some "analysisVariables")
        (Json.obj [("_links", Json.obj lfs)])
      = Json.obj [("_links", Json.obj [])])
    ∧ (∀ p j, p ≠ some "analysisVariables" → noKeyJ "analysisVariables" j = true →
      remove_links_parent_refs p j = j)
    ∧ (∀ p xs, remove_links_parent_refs p (Json.arr xs)
      = Json.arr (xs.map (remove_links_parent_refs p))) := by
  refine ⟨removeLinks_links_self_other, ?_, ?_, removeLinks_noAV, ?_⟩
  · intro A B h
    rw [removeLinks_links_self_other A B, removeLinks_noAV (some "self") A (by simp) h]
  · intro lfs h
    rw [removeLinks_obj, removeLinksF_cons_obj_hit, shrinkSelf_noSelf lfs h, removeLinksF_nil]
  · intro p xs
    rw [removeLinks_arr, removeLinksL_eq_map]

/-- C9 witness: concrete instances of the hypothesised clauses. -/
theorem c9_amended_witness :
    remove_links_parent_refs (some "analysisVariables")
      (Json.obj [("_links", Json.obj [("self", Json.str "a"), ("other", Json.str "b")])])
      = Json.obj [("_links", Json.obj [("self", Json.str "a")])]
    ∧ remove_links_parent_refs (some "analysisVariables")
        (Json.obj [("_links", Json.obj [("x", Json.str "v")])])
      = Json.obj [("_links", Json.obj [])]
    ∧ remove_links_parent_refs (some "other")
        (Json.obj [("q", Json.null)]) = Json.obj [("q", Json.null)] := by
  obtain ⟨h1, h2, h3, h4, h5⟩ := c9_amended
  exact ⟨h2 (Json.str "a") (Json.str "b") rfl, h3 [("x", Json.str "v")] rfl,
    h4 (some "other") (Json.obj [("q", Json.null)]) (by decide) rfl⟩

/-! ## Claim C1 -/

theorem escList_replicate_a (ascii : Bool) :
    ∀ n, escList ascii (List.replicate n 'a') = List.replicate n 'a'
  | 0 => rfl
  | n + 1 => by
    rw [List.replicate_succ, escList, escList_replicate_a ascii n]
    have h : escChar ascii 'a' = ['a'] := by cases ascii <;> decide
    rw [h, ← List.replicate_succ]
    rfl

theorem escStr_length (ascii : Bool) (s : String) :
    (escStr ascii s).length = (escList ascii s.data).length + 2 := by
  show ("\"" ++ String.mk (escList ascii s.data) ++ "\"").length = _
  simp only [string_length_append]
  have h1 : ("\"" : String).length = 1 := rfl
  have h2 : (String.mk (escList ascii s.data)).length = (escList ascii s.data).length := rfl
  omega

/-- A response object `{"k": s}` whose serialized form has `s.data` escaped
plus 9 punctuation characters. -/
theorem dumps_obj_single_str_length (s : String) :
    (dumpsDefault (Json.obj [("k", Json.str s)])).length
      = (escList true s.data).length + 9 := by
  show ("\x7b" ++ (escStr true "k" ++ ": " ++ escStr true s) ++ "\x7d").length = _
  simp only [string_length_append]
  have hb : ("\x7b" : String).length = 1 := rfl
  have hd : ("\x7d" : String).length = 1 := rfl
  have hc : (": " : String).length = 2 := rfl
  have hk : (escStr true "k").length = 3 := by decide
  rw [escStr_length true s, hk]
  omega

/-- A 130,000-character string, making `{"k": bigStr}` serialize to 130,009
characters. -/
def bigStr : String := String.mk (List.replicate 130000 'a')

def bigObjData : Json := Json.obj [("k", Json.str bigStr)]

theorem dumps_bigObjData_length : (dumpsDefault bigObjData).length = 130009 := by
  show (dumpsDefault (Json.obj [("k", Json.str bigStr)])).length = 130009
  rw [dumps_obj_single_str_length bigStr]
  have h : escList true bigStr.data = List.replicate 130000 'a' :=
    escList_replicate_a true 130000
  rw [h, List.length_replicate]

/-- C1 (code bug): the eleven data-slicing tools compute the length of the
serialized string but then slice the decoded data
(`json.dumps(data[:130000])`).  For a JSON object — the usual shape of every
one of these endpoints' responses — the slice raises
`TypeError: unhashable type: 'slice'`, caught by `except Exception`, so the
caller receives "Execution Error: unhashable type: 'slice'" instead of the
first 130,000 characters of the serialization followed by the marker. -/
theorem c1_truncation_code_bug :
    (dumpsDefault bigObjData).length > maxResponseLen
    ∧ get_sdtmig_class_info_respond (Outcome.ok bigObjData)
        = "Execution Error: unhashable type: 'slice'"
    ∧ get_sdtmig_class_info_respond (Outcome.ok bigObjData)
        ≠ strTake (dumpsDefault bigObjData) maxResponseLen ++ truncMarker := by
  have hlen := dumps_bigObjData_length
  have hgt : (dumpsDefault bigObjData).length > maxResponseLen := by
    rw [hlen]; decide
  have he : get_sdtmig_class_info_respond (Outcome.ok bigObjData)
      = "Execution Error: unhashable type: 'slice'" := by
    show respondSliceData (Outcome.ok bigObjData) = _
    simp only [respondSliceData]
    rw [if_pos hgt]
    decide
  refine ⟨hgt, he, ?_⟩
  rw [he]
  intro h
  have hl := congrArg String.length h
  rw [string_length_append, strTake_length, hlen] at hl
  revert hl
  decide

/-! ## Claim C6 -/

/-- Nested singleton arrays: `deepArr n` serializes to `2n + 2` characters
under any separators, providing outputs of arbitrary length. -/
def deepArr : Nat → Json
  | 0 => Json.arr []
  | n + 1 => Json.arr [deepArr n]

theorem dumpsJ_deepArr_length (ascii : Bool) (isep ksep : String) :
    ∀ n, (dumpsJ ascii isep ksep (deepArr n)).length = 2 * n + 2
  | 0 => by
    show ("[" ++ dumpsItems ascii isep ksep [] ++ "]").length = 2
    have h : dumpsItems ascii isep ksep [] = "" := rfl
    rw [h]
    decide
  | n + 1 => by
    show ("[" ++ dumpsJ ascii isep ksep (deepArr n) ++ "]").length = 2 * (n + 1) + 2
    simp only [string_length_append]
    rw [dumpsJ_deepArr_length ascii isep ksep n]
    have h1 : ("[" : String).length = 1 := rfl
    have h2 : ("]" : String).length = 1 := rfl
    omega

/-- C6 counterexample: the truncation marker is not one fixed string (the
three CT-package tools append a different marker), and
`get_CDISC_Library_api_product_list` applies no length cap at all — its
output exceeds 130,000 characters on a large response. -/
theorem c6_counterexample :
    truncMarker ≠ truncMarkerCT
    ∧ (get_CDISC_Library_api_product_list_respond (Outcome.ok (deepArr 65000))).length
        > maxResponseLen := by
  refine ⟨by decide, ?_⟩
  show (dumpsJ false ", " ": " (deepArr 65000)).length > maxResponseLen
  rw [dumpsJ_deepArr_length]
  decide

/-- C6 amended: every tool except the product list compares the serialized
length with the same constant 130,000 and returns the serialization
unchanged when within it; in the over-limit branch the marker is one of two
fixed strings — `"\n... [Truncated]"` for the three CT-package tools,
`"...The data is too long, please shorten the request."` for the rest — and
only the string-slicing tools return the capped prefix; the product-list
tool applies no cap. -/
theorem c6_amended :
    (∀ s : String, s.length ≤ maxResponseLen → truncLong s = s ∧ truncCT s = s)
    ∧ (∀ s : String, s.length > maxResponseLen →
        truncLong s = strTake s maxResponseLen ++ truncMarker
        ∧ truncCT s = strTake s maxResponseLen ++ truncMarkerCT)
    ∧ (∀ s : String,
        (truncLong s).length ≤ max s.length (maxResponseLen + truncMarker.length)
        ∧ (truncCT s).length ≤ max s.length (maxResponseLen + truncMarkerCT.length))
    ∧ (∀ d, (dumpsDefault d).length ≤ maxResponseLen →
        respondSliceData (Outcome.ok d) = dumpsDefault d)
    ∧ (∀ xs, (dumpsDefault (Json.arr xs)).length > maxResponseLen →
        respondSliceData (Outcome.ok (Json.arr xs))
          = dumpsDefault (Json.arr (xs.take maxResponseLen)) ++ truncMarker)
    ∧ (∀ shape d, respondSliceStr shape (Outcome.ok d) = truncLong (dumpsDefault (shape d)))
    ∧ (∀ sh d d2, sh d = Except.ok d2 →
        respondCT sh (Outcome.ok d) = truncCT (dumpsCompact d2))
    ∧ (∀ d, respondProducts (Outcome.ok d) = dumpsNoAscii d)
    ∧ (respondProducts (Outcome.ok (deepArr 65000))).length > maxResponseLen
    ∧ truncMarker ≠ truncMarkerCT := by
  refine ⟨?_, ?_, ?_, ?_, ?_, fun _ _ => rfl, ?_, fun _ => rfl, ?_, by decide⟩
  · intro s h
    constructor
    · simp only [truncLong]; rw [if_neg (by omega)]
    · simp only [truncCT]; rw [if_neg (by omega)]
  · intro s h
    constructor
    · simp only [truncLong]; rw [if_pos h]
    · simp only [truncCT]; rw [if_pos h]
  · intro s
    constructor
    · rcases Nat.lt_or_ge maxResponseLen s.length with h | h
      · have e : truncLong s = strTake s maxResponseLen ++ truncMarker := by
          simp only [truncLong]; rw [if_pos h]
        rw [e, string_length_append, strTake_length]
        have hm : min maxResponseLen s.length = maxResponseLen := by omega
        rw [hm]
        exact le_max_right _ _
      · have e : truncLong s = s := by simp only [truncLong]; rw [if_neg (by omega)]
        rw [e]
        exact le_max_left _ _
    · rcases Nat.lt_or_ge maxResponseLen s.length with h | h
      · have e : truncCT s = strTake s maxResponseLen ++ truncMarkerCT := by
          simp only [truncCT]; rw [if_pos h]
        rw [e, string_length_append, strTake_length]
        have hm : min maxResponseLen s.length = maxResponseLen := by omega
        rw [hm]
        exact le_max_right _ _
      · have e : truncCT s = s := by simp only [truncCT]; rw [if_neg (by omega)]
        rw [e]
        exact le_max_left _ _
  · intro d h
    simp only [respondSliceData]
    rw [if_neg (by omega)]
  · intro xs h
    simp only [respondSliceData]
    rw [if_pos h]
    simp [pySlice]
  · intro sh d d2 h
    simp only [respondCT]
    rw [h]
  · show (dumpsJ false ", " ": " (deepArr 65000)).length > maxResponseLen
    rw [dumpsJ_deepArr_length]
    decide

/-- C6 witness: concrete instances of the hypothesised clauses. -/
theorem c6_amended_witness :
    truncLong "x" = "x"
    ∧ truncCT "x" = "x"
    ∧ truncLong (dumpsDefault (deepArr 65000))
      = strTake (dumpsDefault (deepArr 65000)) maxResponseLen ++ truncMarker
    ∧ truncCT (dumpsDefault (deepArr 65000))
      = strTake (dumpsDefault (deepArr 65000)) maxResponseLen ++ truncMarkerCT
    ∧ respondSliceData (Outcome.ok Json.null) = dumpsDefault Json.null
    ∧ respondSliceData (Outcome.ok (Json.arr [deepArr 65000]))
      = dumpsDefault (Json.arr ([deepArr 65000].take maxResponseLen)) ++ truncMarker
    ∧ respondCT (fun d => Except.ok d) (Outcome.ok Json.null)
      = truncCT (dumpsCompact Json.null) := by
  obtain ⟨h1, h2, h3, h4, h5, h6, h7, h8, h9, h10⟩ := c6_amended
  have hbig : (dumpsDefault (deepArr 65000)).length > maxResponseLen := by
    show (dumpsJ true ", " ": " (deepArr 65000)).length > maxResponseLen
    rw [dumpsJ_deepArr_length]
    decide
  have hbig2 : (dumpsDefault (Json.arr [deepArr 65000])).length > maxResponseLen := by
    show (dumpsJ true ", " ": " (deepArr 65001)).length > maxResponseLen
    rw [dumpsJ_deepArr_length]
    decide
  exact ⟨(h1 "x" (by decide)).1, (h1 "x" (by decide)).2,
    (h2 _ hbig).1, (h2 _ hbig).2,
    h4 Json.null (by decide), h5 [deepArr 65000] hbig2,
    h7 _ Json.null Json.null rfl⟩
